import Mathlib

/-!
Verification development for the TLS key-share subsystem of this BoringSSL
fork (src/ssl/ssl_key_share.cc) and its X.509 signature-algorithm dispatcher
(src/crypto/x509/algorithm.c).

The backends' control flow (length checks, alert writes, framing, branch
order) is translated directly from the source.  The external cryptographic
primitives (EC scalar multiplication, X25519, HRSS, the liboqs KEMs) are out
of scope of the source and are modelled as abstract structures; the
assumption "the primitives behave as specified" is expressed by `Good`
predicate structures on those models.

Fallible internal operations are driven by an `Env` record of flags:
`mallocOk` covers heap allocation (`BN_CTX_new`, `Array::Init`, ...),
`cbbOk` covers CBB buffer growth, `rngOk` covers `BN_rand_range_ex`.
A flag set to `false` means the first operation of that kind fails, exactly
as the corresponding call site in the source would.
-/

namespace KeyShareProof

/-- Byte strings are lists of naturals; wire bytes are always < 256. -/
abbrev Bytes := List Nat

/-- TLS alert code `SSL_AD_DECODE_ERROR` (= 50). -/
def SSL_AD_DECODE_ERROR : Nat := 50

/-- TLS alert code `SSL_AD_INTERNAL_ERROR` (= 80). -/
def SSL_AD_INTERNAL_ERROR : Nat := 80

/-- Success/failure flags for the fallible internal operations of the
source: heap allocation, CBB growth, RNG. -/
structure Env where
  mallocOk : Bool
  cbbOk : Bool
  rngOk : Bool
deriving Repr, DecidableEq

/-- Big-endian fixed-width byte encoding of a natural number, as produced by
`BN_bn2bin_padded`: `len` output bytes, left-padded with zeros. -/
def natToBE : Nat → Nat → Bytes
  | 0, _ => []
  | l + 1, n => natToBE l (n / 256) ++ [n % 256]

/-- Value of a big-endian byte string, as computed by `BN_bin2bn`. -/
def beToNat (bs : Bytes) : Nat :=
  bs.foldl (fun acc b => acc * 256 + b) 0

/-- Result of `BN_bn2bin_padded(out, len, n)`: fails when `n` does not fit
in `len` bytes. -/
def bn2binPadded (len n : Nat) : Option Bytes :=
  if n < 256 ^ len then some (natToBE len n) else none

/-- Two-byte big-endian write of a 16-bit length, as done by `CBB_add_u16`
applied to a `size_t` (the C conversion truncates mod 2^16). -/
def addU16 (n : Nat) : Bytes := [n / 256 % 256, n % 256]

/-- Result of a `Finish`-shaped call: the returned boolean, the bytes moved
into `*out_secret` (`none` when the function returned before the final
assignment), and the final value of the alert byte. -/
structure FinishResult where
  ok : Bool
  secret : Option Bytes
  alert : Nat
deriving Repr, DecidableEq

/-- Result of an `Accept`-shaped call: the returned boolean, the bytes
written to `*out_public_key` (`none` when nothing was written), the bytes
moved into `*out_secret`, and the final value of the alert byte. -/
structure AcceptResult where
  ok : Bool
  publicKey : Option Bytes
  secret : Option Bytes
  alert : Nat
deriving Repr, DecidableEq

/-! ### Abstract models of the external primitives -/

/-- Abstract model of a named prime-order elliptic-curve group as used by
`ECKeyShare`: scalar sampling, base-point and general scalar multiplication,
the affine x-coordinate, and the SEC1 uncompressed point codec. -/
structure ECModel where
  Point : Type
  degree : Nat
  orderBytes : Nat
  order : Nat
  randRange : Nat → Nat
  mulG : Nat → Point
  mul : Nat → Point → Point
  xCoord : Point → Nat
  pointToBytes : Point → Bytes
  bytesToPoint : Bytes → Option Point

/-- The EC primitives behave as specified: the uncompressed codec round
trips and starts with the byte 0x04, scalar multiplication commutes through
the base point, coordinates fit in `ceil(degree/8)` bytes, sampled scalars
lie in `[1, order)`, the order fits in `orderBytes` bytes, and encoded
points fit in a 16-bit length field. -/
structure ECModel.Good (M : ECModel) : Prop where
  parse_marshal : ∀ p, M.bytesToPoint (M.pointToBytes p) = some p
  marshal_head : ∀ p, ∃ t, M.pointToBytes p = 4 :: t
  mul_comm_base : ∀ a b, M.mul a (M.mulG b) = M.mul b (M.mulG a)
  xCoord_lt : ∀ p, M.xCoord p < 256 ^ ((M.degree + 7) / 8)
  randRange_lt : ∀ r, M.randRange r < M.order
  order_le : M.order ≤ 256 ^ M.orderBytes
  marshal_len_lt : ∀ p, (M.pointToBytes p).length < 65536

/-- Abstract model of the X25519 primitive: keypair generation from RNG
output and the scalar-multiplication function (`none` models `X25519`
returning zero, i.e. rejecting the peer point). -/
structure X25519Model where
  keypair : Nat → Bytes × Bytes
  scalarMult : Bytes → Bytes → Option Bytes

/-- The X25519 primitives behave as specified: public keys are 32 bytes,
private keys are 32 bytes, outputs are 32 bytes, honest key exchanges
succeed and the two sides derive the same value. -/
structure X25519Model.Good (M : X25519Model) : Prop where
  pub_len : ∀ r, (M.keypair r).1.length = 32
  priv_len : ∀ r, (M.keypair r).2.length = 32
  out_len : ∀ a b z, M.scalarMult a b = some z → z.length = 32
  dh_some : ∀ r s, ∃ z, M.scalarMult (M.keypair r).2 (M.keypair s).1 = some z
  dh_comm : ∀ r s,
    M.scalarMult (M.keypair r).2 (M.keypair s).1 =
      M.scalarMult (M.keypair s).2 (M.keypair r).1

/-- Abstract model of the HRSS KEM used by CECPQ2: the key-generation,
marshal/parse, encapsulation and decapsulation primitives together with the
three length constants of `hrss.h`. -/
structure HRSSModel where
  Pub : Type
  Priv : Type
  pubBytes : Nat
  ctBytes : Nat
  keyBytes : Nat
  generate : Nat → Pub × Priv
  marshal : Pub → Bytes
  parse : Bytes → Option Pub
  encap : Pub → Nat → Bytes × Bytes
  decap : Priv → Bytes → Bytes

/-- The HRSS primitives behave as specified: marshalled public keys have
length `HRSS_PUBLIC_KEY_BYTES` and parse back, ciphertexts and shared
secrets have their declared lengths, and decapsulating an honestly produced
ciphertext returns the encapsulated secret. -/
structure HRSSModel.Good (M : HRSSModel) : Prop where
  marshal_len : ∀ p, (M.marshal p).length = M.pubBytes
  parse_marshal : ∀ p, M.parse (M.marshal p) = some p
  encap_ct_len : ∀ p e, (M.encap p e).1.length = M.ctBytes
  encap_ss_len : ∀ p e, (M.encap p e).2.length = M.keyBytes
  decap_len : ∀ sk ct, (M.decap sk ct).length = M.keyBytes
  decap_encap : ∀ r e,
    M.decap (M.generate r).2 (M.encap (M.generate r).1 e).1 =
      (M.encap (M.generate r).1 e).2

/-- Abstract model of a liboqs KEM handle (`OQS_KEM`): the four length
fields read from the algorithm descriptor and the three fallible primitive
calls (`none` models a return value other than `OQS_SUCCESS`). -/
structure KemAlg where
  length_public_key : Nat
  length_secret_key : Nat
  length_ciphertext : Nat
  length_shared_secret : Nat
  keypair : Nat → Option (Bytes × Bytes)
  encaps : Bytes → Nat → Option (Bytes × Bytes)
  decaps : Bytes → Bytes → Option Bytes

/-- The KEM primitives behave as specified: generation and honest
encapsulation succeed, outputs have their declared lengths (all below the
16-bit framing limit), and decapsulation of an honest ciphertext returns
the encapsulated secret. -/
structure KemAlg.Good (K : KemAlg) : Prop where
  keypair_some : ∀ r, ∃ pk sk, K.keypair r = some (pk, sk)
  keypair_pk_len : ∀ r pk sk, K.keypair r = some (pk, sk) →
    pk.length = K.length_public_key
  encaps_some : ∀ r pk sk e, K.keypair r = some (pk, sk) →
    ∃ ct ss, K.encaps pk e = some (ct, ss)
  encaps_ct_len : ∀ pk e ct ss, K.encaps pk e = some (ct, ss) →
    ct.length = K.length_ciphertext
  decap_encap : ∀ r pk sk e ct ss, K.keypair r = some (pk, sk) →
    K.encaps pk e = some (ct, ss) → K.decaps ct sk = some ss
  pk_len_lt : K.length_public_key < 65536
  ct_len_lt : K.length_ciphertext < 65536

/-! ### ECKeyShare (src/ssl/ssl_key_share.cc lines 41-159) -/

/-- Translation of `ECKeyShare::Offer`: allocate a `BN_CTX`, the group and
a fresh `BIGNUM` (heap), sample the private scalar in `[1, order)` (RNG),
compute `d·G` (heap for the point) and append its uncompressed encoding to
the CBB.  Returns the retained private scalar and the offer bytes. -/
def ecOffer (M : ECModel) (env : Env) (rng : Nat) : Option (Nat × Bytes) :=
  if !env.mallocOk then none
  else if !env.rngOk then none
  else
    let d := M.randRange rng
    if !env.cbbOk then none
    else some (d, M.pointToBytes (M.mulG d))

/-- Translation of `ECKeyShare::Finish`: pre-set the alert to
`INTERNAL_ERROR`; allocate context, group, points and the coordinate
(heap); reject an empty peer key, a leading byte other than 0x04 or a peer
key `EC_POINT_oct2point` cannot parse, with `DECODE_ERROR`; otherwise the
secret is the affine x-coordinate of `d·P`, left-padded to
`ceil(degree/8)` bytes. -/
def ecFinish (M : ECModel) (env : Env) (d : Nat) (peer : Bytes) :
    FinishResult :=
  if !env.mallocOk then ⟨false, none, SSL_AD_INTERNAL_ERROR⟩
  else
    match peer with
    | [] => ⟨false, none, SSL_AD_DECODE_ERROR⟩
    | b :: _ =>
      if b ≠ 4 then ⟨false, none, SSL_AD_DECODE_ERROR⟩
      else
        match M.bytesToPoint peer with
        | none => ⟨false, none, SSL_AD_DECODE_ERROR⟩
        | some P =>
          match bn2binPadded ((M.degree + 7) / 8) (M.xCoord (M.mul d P)) with
          | none => ⟨false, none, SSL_AD_INTERNAL_ERROR⟩
          | some s => ⟨true, some s, SSL_AD_INTERNAL_ERROR⟩

/-- Translation of the base-class `SSLKeyShare::Accept` (used by the EC and
X25519 backends, which do not override it): pre-set the alert to
`INTERNAL_ERROR`, then `Offer` into the reply buffer and `Finish` against
the peer key. -/
def ecDefaultAccept (M : ECModel) (env : Env) (rng : Nat) (peer : Bytes) :
    AcceptResult :=
  match ecOffer M env rng with
  | none => ⟨false, none, none, SSL_AD_INTERNAL_ERROR⟩
  | some (d, pub) =>
    let fr := ecFinish M env d peer
    ⟨fr.ok, some pub, fr.secret, fr.alert⟩

/-! ### X25519KeyShare (lines 161-211) -/

/-- Translation of `X25519KeyShare::Offer`: `X25519_keypair` (infallible),
then append the 32 public bytes to the CBB. -/
def x25519Offer (M : X25519Model) (env : Env) (rng : Nat) :
    Option (Bytes × Bytes) :=
  let kp := M.keypair rng
  if !env.cbbOk then none else some (kp.2, kp.1)

/-- Translation of `X25519KeyShare::Finish`: pre-set `INTERNAL_ERROR`;
allocate the 32-byte secret (heap); fail with `DECODE_ERROR` when the peer
key is not 32 bytes or the `X25519` primitive rejects it. -/
def x25519Finish (M : X25519Model) (env : Env) (priv : Bytes)
    (peer : Bytes) : FinishResult :=
  if !env.mallocOk then ⟨false, none, SSL_AD_INTERNAL_ERROR⟩
  else if peer.length ≠ 32 then ⟨false, none, SSL_AD_DECODE_ERROR⟩
  else
    match M.scalarMult priv peer with
    | none => ⟨false, none, SSL_AD_DECODE_ERROR⟩
    | some s => ⟨true, some s, SSL_AD_INTERNAL_ERROR⟩

/-- Default `Accept` specialised to the X25519 backend. -/
def x25519DefaultAccept (M : X25519Model) (env : Env) (rng : Nat)
    (peer : Bytes) : AcceptResult :=
  match x25519Offer M env rng with
  | none => ⟨false, none, none, SSL_AD_INTERNAL_ERROR⟩
  | some (priv, pub) =>
    let fr := x25519Finish M env priv peer
    ⟨fr.ok, some pub, fr.secret, fr.alert⟩

/-! ### CECPQ2KeyShare (lines 213-302) -/

/-- Translation of `CECPQ2KeyShare::Offer`: X25519 keypair and HRSS key
generation (infallible), then append `x25519_pub (32) ‖ hrss_pub` to the
CBB.  Returns the retained private state and the offer bytes. -/
def cecpq2Offer (X : X25519Model) (H : HRSSModel) (env : Env)
    (rngX rngH : Nat) : Option ((Bytes × H.Priv) × Bytes) :=
  let xkp := X.keypair rngX
  let hkp := H.generate rngH
  if !env.cbbOk then none
  else some ((xkp.2, hkp.2), xkp.1 ++ H.marshal hkp.1)

/-- Translation of `CECPQ2KeyShare::Accept` (an override; note that it does
NOT pre-set the alert byte): allocate the secret (heap, no alert written on
failure); fresh X25519 keypair; fail `DECODE_ERROR` when the peer key is
not `32 + HRSS_PUBLIC_KEY_BYTES` bytes, the HRSS public key does not parse
or `X25519` rejects the first 32 bytes; otherwise HRSS-encapsulate and
write `x25519_pub ‖ ciphertext`, secret `x25519_secret ‖ hrss_secret`. -/
def cecpq2Accept (X : X25519Model) (H : HRSSModel) (env : Env)
    (rngX rngE : Nat) (alert0 : Nat) (peer : Bytes) : AcceptResult :=
  if !env.mallocOk then ⟨false, none, none, alert0⟩
  else
    let xkp := X.keypair rngX
    if peer.length ≠ 32 + H.pubBytes then
      ⟨false, none, none, SSL_AD_DECODE_ERROR⟩
    else
      match H.parse (peer.drop 32) with
      | none => ⟨false, none, none, SSL_AD_DECODE_ERROR⟩
      | some hpub =>
        match X.scalarMult xkp.2 (peer.take 32) with
        | none => ⟨false, none, none, SSL_AD_DECODE_ERROR⟩
        | some xsec =>
          let ce := H.encap hpub rngE
          if !env.cbbOk then ⟨false, none, none, alert0⟩
          else ⟨true, some (xkp.1 ++ ce.1), some (xsec ++ ce.2), alert0⟩

/-- Translation of `CECPQ2KeyShare::Finish`: pre-set `INTERNAL_ERROR`;
allocate the secret (heap); fail `DECODE_ERROR` when the peer key is not
`32 + HRSS_CIPHERTEXT_BYTES` bytes or `X25519` rejects the first 32 bytes;
otherwise HRSS-decapsulate the remainder. -/
def cecpq2Finish (X : X25519Model) (H : HRSSModel) (env : Env)
    (xpriv : Bytes) (hpriv : H.Priv) (peer : Bytes) : FinishResult :=
  if !env.mallocOk then ⟨false, none, SSL_AD_INTERNAL_ERROR⟩
  else if peer.length ≠ 32 + H.ctBytes then
    ⟨false, none, SSL_AD_DECODE_ERROR⟩
  else
    match X.scalarMult xpriv (peer.take 32) with
    | none => ⟨false, none, SSL_AD_DECODE_ERROR⟩
    | some xsec =>
      ⟨true, some (xsec ++ H.decap hpriv (peer.drop 32)),
        SSL_AD_INTERNAL_ERROR⟩

/-! ### OQSKeyShare (lines 304-408) -/

/-- Translation of `OQSKeyShare::Offer`: allocate public and private key
buffers (heap), `OQS_KEM_keypair` (primitive, may fail with no alert
parameter available), append the public key to the CBB.  Returns the
retained secret key and the offer bytes. -/
def oqsOffer (K : KemAlg) (env : Env) (rng : Nat) :
    Option (Bytes × Bytes) :=
  if !env.mallocOk then none
  else
    match K.keypair rng with
    | none => none
    | some (pk, sk) => if !env.cbbOk then none else some (sk, pk)

/-- Translation of `OQSKeyShare::Accept` (an override; does NOT pre-set the
alert byte): `DECODE_ERROR` when the peer key length differs from
`length_public_key`; allocate buffers (heap, no alert written); on
`OQS_KEM_encaps` failure the source sets `DECODE_ERROR`; on success write
the ciphertext, secret is the encapsulated shared secret. -/
def oqsAccept (K : KemAlg) (env : Env) (rng : Nat) (alert0 : Nat)
    (peer : Bytes) : AcceptResult :=
  if peer.length ≠ K.length_public_key then
    ⟨false, none, none, SSL_AD_DECODE_ERROR⟩
  else if !env.mallocOk then ⟨false, none, none, alert0⟩
  else
    match K.encaps peer rng with
    | none => ⟨false, none, none, SSL_AD_DECODE_ERROR⟩
    | some (ct, ss) =>
      if !env.cbbOk then ⟨false, none, none, alert0⟩
      else ⟨true, some ct, some ss, alert0⟩

/-- Translation of `OQSKeyShare::Finish` (does NOT pre-set the alert byte):
`DECODE_ERROR` when the peer key length differs from `length_ciphertext`;
allocate the secret (heap, no alert written); on `OQS_KEM_decaps` failure
the source sets `DECODE_ERROR`. -/
def oqsFinish (K : KemAlg) (env : Env) (sk : Bytes) (alert0 : Nat)
    (peer : Bytes) : FinishResult :=
  if peer.length ≠ K.length_ciphertext then
    ⟨false, none, SSL_AD_DECODE_ERROR⟩
  else if !env.mallocOk then ⟨false, none, alert0⟩
  else
    match K.decaps peer sk with
    | none => ⟨false, none, SSL_AD_DECODE_ERROR⟩
    | some ss => ⟨true, some ss, alert0⟩

/-! ### ClassicalWithOQSKeyShare — the generic hybrid composer
(lines 410-530).  Its classical sub-backend is produced by
`SSLKeyShare::Create` on a classical EC group id, so it is embedded here
with an `ECModel`.  The composer indexes into `peer_key` through
`Span::operator[]`, which performs no bounds check: an out-of-bounds index
is undefined behaviour and is modelled by the outer `Option` returning
`none`.  `Span::subspan(pos, len)` aborts when `pos > size` and otherwise
clamps `len` to `size - pos`, which is exactly `(drop pos).take len`. -/

/-- Translation of `ClassicalWithOQSKeyShare::Offer`: CBB setup (growth),
classical offer, PQ offer, then emit
`u16(|A|) ‖ A ‖ u16(|B|) ‖ B` (the u16 writes truncate mod 2^16). -/
def hybridOffer (M : ECModel) (K : KemAlg) (env : Env) (rngC rngP : Nat) :
    Option ((Nat × Bytes) × Bytes) :=
  if !env.cbbOk then none
  else
    match ecOffer M env rngC with
    | none => none
    | some (d, a) =>
      match oqsOffer K env rngP with
      | none => none
      | some (sk, b) =>
        some ((d, sk), addU16 a.length ++ a ++ addU16 b.length ++ b)

/-- Translation of `ClassicalWithOQSKeyShare::Accept`: read the two 16-bit
length fields with unchecked indexing (`none` = out-of-bounds read), slice
the two sub-strings, run the classical default `Accept` and the PQ
`Accept` threading the alert byte through, then emit the framed reply and
the concatenated secret. -/
def hybridAccept (M : ECModel) (K : KemAlg) (env : Env)
    (rngCS rngPS : Nat) (alert0 : Nat) (peer : Bytes) :
    Option AcceptResult :=
  match peer.get? 0, peer.get? 1 with
  | some b0, some b1 =>
    let lenA := b0 * 256 + b1
    match peer.get? (2 + lenA), peer.get? (2 + lenA + 1) with
    | some c0, some c1 =>
      let lenB := c0 * 256 + c1
      if !env.cbbOk then some ⟨false, none, none, alert0⟩
      else
        let ra := ecDefaultAccept M env rngCS ((peer.drop 2).take lenA)
        if !ra.ok then some ⟨false, none, none, ra.alert⟩
        else
          let rb := oqsAccept K env rngPS ra.alert
            ((peer.drop (2 + lenA + 2)).take lenB)
          if !rb.ok then some ⟨false, none, none, rb.alert⟩
          else
            match ra.publicKey, ra.secret, rb.publicKey, rb.secret with
            | some ar, some asec, some br, some bsec =>
              some ⟨true,
                some (addU16 ar.length ++ ar ++ addU16 br.length ++ br),
                some (asec ++ bsec), rb.alert⟩
            | _, _, _, _ => none
    | _, _ => none
  | _, _ => none

/-- Translation of `ClassicalWithOQSKeyShare::Finish`: read the two 16-bit
length fields with unchecked indexing (`none` = out-of-bounds read), slice,
run the classical `Finish` and the PQ `Finish` threading the alert byte,
then concatenate the secrets. -/
def hybridFinish (M : ECModel) (K : KemAlg) (env : Env) (d : Nat)
    (sk : Bytes) (peer : Bytes) : Option FinishResult :=
  match peer.get? 0, peer.get? 1 with
  | some b0, some b1 =>
    let lenA := b0 * 256 + b1
    match peer.get? (2 + lenA), peer.get? (2 + lenA + 1) with
    | some c0, some c1 =>
      let lenB := c0 * 256 + c1
      let fa := ecFinish M env d ((peer.drop 2).take lenA)
      if !fa.ok then some ⟨false, none, fa.alert⟩
      else
        let fb := oqsFinish K env sk fa.alert
          ((peer.drop (2 + lenA + 2)).take lenB)
        if !fb.ok then some ⟨false, none, fb.alert⟩
        else if !env.cbbOk then some ⟨false, none, fb.alert⟩
        else
          match fa.secret, fb.secret with
          | some sa, some sb => some ⟨true, some (sa ++ sb), fb.alert⟩
          | _, _ => none
    | _, _ => none
  | _, _ => none

/-! ### Named-group registry (lines 532-617) and lookups (1050-1087)

The registry strings are taken verbatim from the source.  The numeric
`NID_*` and `SSL_CURVE_*` constants come from headers that are not part of
src/ (nid.h, ssl.h); their exact values do not matter to any claim, only
their identities, so they are modelled here as distinct naturals: the six
classical entries use the well-known BoringSSL values, the OQS entries use
group id `512 + i` and nid `1200 + i` for the i-th template entry. -/

/-- Registry record: `{nid, group_id, name, alias}` as in `NamedGroup`. -/
structure NamedGroup where
  nid : Nat
  group_id : Nat
  name : String
  aliasStr : String
deriving Repr, DecidableEq

/-- Group id of SECP224R1 (21). -/
def SSL_CURVE_SECP224R1 : Nat := 21

/-- Group id of SECP256R1 (23). -/
def SSL_CURVE_SECP256R1 : Nat := 23

/-- Group id of SECP384R1 (24). -/
def SSL_CURVE_SECP384R1 : Nat := 24

/-- Group id of SECP521R1 (25). -/
def SSL_CURVE_SECP521R1 : Nat := 25

/-- Group id of X25519 (29). -/
def SSL_CURVE_X25519 : Nat := 29

/-- Group id of CECPQ2 (16696). -/
def SSL_CURVE_CECPQ2 : Nat := 16696

/-- Translation of the `kNamedGroups` table, in source order. -/
def kNamedGroups : List NamedGroup := [
  NamedGroup.mk 713  21  "P-224"  "secp224r1",
  NamedGroup.mk 415  23  "P-256"  "prime256v1",
  NamedGroup.mk 715  24  "P-384"  "secp384r1",
  NamedGroup.mk 716  25  "P-521"  "secp521r1",
  NamedGroup.mk 948  29  "X25519"  "x25519",
  NamedGroup.mk 959  16696  "CECPQ2"  "CECPQ2",
  NamedGroup.mk 1200  512  "oqs_kem_default"  "oqs_kem_default",
  NamedGroup.mk 1201  513  "p256_oqs_kem_default"  "p256_oqs_kem_default",
  NamedGroup.mk 1202  514  "bike1l1cpa"  "bike1l1cpa",
  NamedGroup.mk 1203  515  "p256_bike1l1cpa"  "p256_bike1l1cpa",
  NamedGroup.mk 1204  516  "bike1l3cpa"  "bike1l3cpa",
  NamedGroup.mk 1205  517  "p384_bike1l3cpa"  "p384_bike1l3cpa",
  NamedGroup.mk 1206  518  "bike1l1fo"  "bike1l1fo",
  NamedGroup.mk 1207  519  "p256_bike1l1fo"  "p256_bike1l1fo",
  NamedGroup.mk 1208  520  "bike1l3fo"  "bike1l3fo",
  NamedGroup.mk 1209  521  "p384_bike1l3fo"  "p384_bike1l3fo",
  NamedGroup.mk 1210  522  "frodo640aes"  "frodo640aes",
  NamedGroup.mk 1211  523  "p256_frodo640aes"  "p256_frodo640aes",
  NamedGroup.mk 1212  524  "frodo640shake"  "frodo640shake",
  NamedGroup.mk 1213  525  "p256_frodo640shake"  "p256_frodo640shake",
  NamedGroup.mk 1214  526  "frodo976aes"  "frodo976aes",
  NamedGroup.mk 1215  527  "p384_frodo976aes"  "p384_frodo976aes",
  NamedGroup.mk 1216  528  "frodo976shake"  "frodo976shake",
  NamedGroup.mk 1217  529  "p384_frodo976shake"  "p384_frodo976shake",
  NamedGroup.mk 1218  530  "frodo1344aes"  "frodo1344aes",
  NamedGroup.mk 1219  531  "p521_frodo1344aes"  "p521_frodo1344aes",
  NamedGroup.mk 1220  532  "frodo1344shake"  "frodo1344shake",
  NamedGroup.mk 1221  533  "p521_frodo1344shake"  "p521_frodo1344shake",
  NamedGroup.mk 1222  534  "kyber512"  "kyber512",
  NamedGroup.mk 1223  535  "p256_kyber512"  "p256_kyber512",
  NamedGroup.mk 1224  536  "kyber768"  "kyber768",
  NamedGroup.mk 1225  537  "p384_kyber768"  "p384_kyber768",
  NamedGroup.mk 1226  538  "kyber1024"  "kyber1024",
  NamedGroup.mk 1227  539  "p521_kyber1024"  "p521_kyber1024",
  NamedGroup.mk 1228  540  "kyber90s512"  "kyber90s512",
  NamedGroup.mk 1229  541  "p256_kyber90s512"  "p256_kyber90s512",
  NamedGroup.mk 1230  542  "kyber90s768"  "kyber90s768",
  NamedGroup.mk 1231  543  "p384_kyber90s768"  "p384_kyber90s768",
  NamedGroup.mk 1232  544  "kyber90s1024"  "kyber90s1024",
  NamedGroup.mk 1233  545  "p521_kyber90s1024"  "p521_kyber90s1024",
  NamedGroup.mk 1234  546  "ntru_hps2048509"  "ntru_hps2048509",
  NamedGroup.mk 1235  547  "p256_ntru_hps2048509"  "p256_ntru_hps2048509",
  NamedGroup.mk 1236  548  "ntru_hps2048677"  "ntru_hps2048677",
  NamedGroup.mk 1237  549  "p384_ntru_hps2048677"  "p384_ntru_hps2048677",
  NamedGroup.mk 1238  550  "ntru_hps4096821"  "ntru_hps4096821",
  NamedGroup.mk 1239  551  "p521_ntru_hps4096821"  "p521_ntru_hps4096821",
  NamedGroup.mk 1240  552  "ntru_hrss701"  "ntru_hrss701",
  NamedGroup.mk 1241  553  "p384_ntru_hrss701"  "p384_ntru_hrss701",
  NamedGroup.mk 1242  554  "lightsaber"  "lightsaber",
  NamedGroup.mk 1243  555  "p256_lightsaber"  "p256_lightsaber",
  NamedGroup.mk 1244  556  "saber"  "saber",
  NamedGroup.mk 1245  557  "p384_saber"  "p384_saber",
  NamedGroup.mk 1246  558  "firesaber"  "firesaber",
  NamedGroup.mk 1247  559  "p521_firesaber"  "p521_firesaber",
  NamedGroup.mk 1248  560  "sidhp434"  "sidhp434",
  NamedGroup.mk 1249  561  "p256_sidhp434"  "p256_sidhp434",
  NamedGroup.mk 1250  562  "sidhp503"  "sidhp503",
  NamedGroup.mk 1251  563  "p256_sidhp503"  "p256_sidhp503",
  NamedGroup.mk 1252  564  "sidhp610"  "sidhp610",
  NamedGroup.mk 1253  565  "p384_sidhp610"  "p384_sidhp610",
  NamedGroup.mk 1254  566  "sidhp751"  "sidhp751",
  NamedGroup.mk 1255  567  "p521_sidhp751"  "p521_sidhp751",
  NamedGroup.mk 1256  568  "sikep434"  "sikep434",
  NamedGroup.mk 1257  569  "p256_sikep434"  "p256_sikep434",
  NamedGroup.mk 1258  570  "sikep503"  "sikep503",
  NamedGroup.mk 1259  571  "p256_sikep503"  "p256_sikep503",
  NamedGroup.mk 1260  572  "sikep610"  "sikep610",
  NamedGroup.mk 1261  573  "p384_sikep610"  "p384_sikep610",
  NamedGroup.mk 1262  574  "sikep751"  "sikep751",
  NamedGroup.mk 1263  575  "p521_sikep751"  "p521_sikep751",
  NamedGroup.mk 1264  576  "hqc128_1_cca2"  "hqc128_1_cca2",
  NamedGroup.mk 1265  577  "p256_hqc128_1_cca2"  "p256_hqc128_1_cca2",
  NamedGroup.mk 1266  578  "hqc192_1_cca2"  "hqc192_1_cca2",
  NamedGroup.mk 1267  579  "p384_hqc192_1_cca2"  "p384_hqc192_1_cca2",
  NamedGroup.mk 1268  580  "hqc192_2_cca2"  "hqc192_2_cca2",
  NamedGroup.mk 1269  581  "p384_hqc192_2_cca2"  "p384_hqc192_2_cca2",
  NamedGroup.mk 1270  582  "hqc256_1_cca2"  "hqc256_1_cca2",
  NamedGroup.mk 1271  583  "p521_hqc256_1_cca2"  "p521_hqc256_1_cca2",
  NamedGroup.mk 1272  584  "hqc256_2_cca2"  "hqc256_2_cca2",
  NamedGroup.mk 1273  585  "p521_hqc256_2_cca2"  "p521_hqc256_2_cca2",
  NamedGroup.mk 1274  586  "hqc256_3_cca2"  "hqc256_3_cca2",
  NamedGroup.mk 1275  587  "p521_hqc256_3_cca2"  "p521_hqc256_3_cca2"]

/-- Translation of `ssl_nid_to_group_id`: first entry whose nid matches. -/
def ssl_nid_to_group_id (nid : Nat) : Option Nat :=
  (kNamedGroups.find? (fun g => g.nid = nid)).map (fun g => g.group_id)

/-- Translation of `ssl_name_to_group_id`: first entry whose canonical name
or alias equals the supplied string (the source compares
`len == strlen(entry) && !strncmp(entry, name, len)`, i.e. byte-exact
equality over exactly the supplied length). -/
def ssl_name_to_group_id (name : String) : Option Nat :=
  (kNamedGroups.find? (fun g => g.name = name || g.aliasStr = name)).map
    (fun g => g.group_id)

/-- Translation of `SSL_get_curve_name`: first entry whose group id
matches; returns the canonical name. -/
def SSL_get_curve_name (group_id : Nat) : Option String :=
  (kNamedGroups.find? (fun g => g.group_id = group_id)).map (fun g => g.name)

/-! ### Factory: `SSLKeyShare::Create` (lines 625-1028) -/

/-- Shape of the backend object `SSLKeyShare::Create` instantiates.  The
`oqs` and `hybrid` cases carry the liboqs method name passed to the
constructor (`OQS_KEM_alg_*` string constants live in liboqs, not in src;
they are modelled as distinct strings named after the macro suffix). -/
inductive KeyShareKind
  | ec (nid : Nat) (gid : Nat)
  | x25519
  | cecpq2
  | oqs (gid : Nat) (meth : String)
  | hybrid (gid : Nat) (classicalGid : Nat) (meth : String)
deriving Repr, DecidableEq

/-- Method name carried by a PQ or hybrid backend kind. -/
def KeyShareKind.meth : KeyShareKind → String
  | .oqs _ m => m
  | .hybrid _ _ m => m
  | _ => ""

/-- The OQS arm of the `Create` switch as an association list in source
order: group id, constructed kind.  Hybrid entries record the paired
classical group id (SECP256R1/SECP384R1/SECP521R1) from the source. -/
def oqsCreateTable : List (Nat × KeyShareKind) := [
  Prod.mk 512 (KeyShareKind.oqs 512 "default"),
  Prod.mk 513 (KeyShareKind.hybrid 513 23 "default"),
  Prod.mk 514 (KeyShareKind.oqs 514 "bike1_l1_cpa"),
  Prod.mk 515 (KeyShareKind.hybrid 515 23 "bike1_l1_cpa"),
  Prod.mk 516 (KeyShareKind.oqs 516 "bike1_l3_cpa"),
  Prod.mk 517 (KeyShareKind.hybrid 517 24 "bike1_l3_cpa"),
  Prod.mk 518 (KeyShareKind.oqs 518 "bike1_l1_fo"),
  Prod.mk 519 (KeyShareKind.hybrid 519 23 "bike1_l1_fo"),
  Prod.mk 520 (KeyShareKind.oqs 520 "bike1_l3_fo"),
  Prod.mk 521 (KeyShareKind.hybrid 521 24 "bike1_l3_fo"),
  Prod.mk 522 (KeyShareKind.oqs 522 "frodokem_640_aes"),
  Prod.mk 523 (KeyShareKind.hybrid 523 23 "frodokem_640_aes"),
  Prod.mk 524 (KeyShareKind.oqs 524 "frodokem_640_shake"),
  Prod.mk 525 (KeyShareKind.hybrid 525 23 "frodokem_640_shake"),
  Prod.mk 526 (KeyShareKind.oqs 526 "frodokem_976_aes"),
  Prod.mk 527 (KeyShareKind.hybrid 527 24 "frodokem_976_aes"),
  Prod.mk 528 (KeyShareKind.oqs 528 "frodokem_976_shake"),
  Prod.mk 529 (KeyShareKind.hybrid 529 24 "frodokem_976_shake"),
  Prod.mk 530 (KeyShareKind.oqs 530 "frodokem_1344_aes"),
  Prod.mk 531 (KeyShareKind.hybrid 531 25 "frodokem_1344_aes"),
  Prod.mk 532 (KeyShareKind.oqs 532 "frodokem_1344_shake"),
  Prod.mk 533 (KeyShareKind.hybrid 533 25 "frodokem_1344_shake"),
  Prod.mk 534 (KeyShareKind.oqs 534 "kyber_512"),
  Prod.mk 535 (KeyShareKind.hybrid 535 23 "kyber_512"),
  Prod.mk 536 (KeyShareKind.oqs 536 "kyber_768"),
  Prod.mk 537 (KeyShareKind.hybrid 537 24 "kyber_768"),
  Prod.mk 538 (KeyShareKind.oqs 538 "kyber_1024"),
  Prod.mk 539 (KeyShareKind.hybrid 539 25 "kyber_1024"),
  Prod.mk 540 (KeyShareKind.oqs 540 "kyber_512_90s"),
  Prod.mk 541 (KeyShareKind.hybrid 541 23 "kyber_512_90s"),
  Prod.mk 542 (KeyShareKind.oqs 542 "kyber_768_90s"),
  Prod.mk 543 (KeyShareKind.hybrid 543 24 "kyber_768_90s"),
  Prod.mk 544 (KeyShareKind.oqs 544 "kyber_1024_90s"),
  Prod.mk 545 (KeyShareKind.hybrid 545 25 "kyber_1024_90s"),
  Prod.mk 546 (KeyShareKind.oqs 546 "ntru_hps2048509"),
  Prod.mk 547 (KeyShareKind.hybrid 547 23 "ntru_hps2048509"),
  Prod.mk 548 (KeyShareKind.oqs 548 "ntru_hps2048677"),
  Prod.mk 549 (KeyShareKind.hybrid 549 24 "ntru_hps2048677"),
  Prod.mk 550 (KeyShareKind.oqs 550 "ntru_hps4096821"),
  Prod.mk 551 (KeyShareKind.hybrid 551 25 "ntru_hps4096821"),
  Prod.mk 552 (KeyShareKind.oqs 552 "ntru_hrss701"),
  Prod.mk 553 (KeyShareKind.hybrid 553 24 "ntru_hrss701"),
  Prod.mk 554 (KeyShareKind.oqs 554 "saber_lightsaber"),
  Prod.mk 555 (KeyShareKind.hybrid 555 23 "saber_lightsaber"),
  Prod.mk 556 (KeyShareKind.oqs 556 "saber_saber"),
  Prod.mk 557 (KeyShareKind.hybrid 557 24 "saber_saber"),
  Prod.mk 558 (KeyShareKind.oqs 558 "saber_firesaber"),
  Prod.mk 559 (KeyShareKind.hybrid 559 25 "saber_firesaber"),
  Prod.mk 560 (KeyShareKind.oqs 560 "sidh_p434"),
  Prod.mk 561 (KeyShareKind.hybrid 561 23 "sidh_p434"),
  Prod.mk 562 (KeyShareKind.oqs 562 "sidh_p503"),
  Prod.mk 563 (KeyShareKind.hybrid 563 23 "sidh_p503"),
  Prod.mk 564 (KeyShareKind.oqs 564 "sidh_p610"),
  Prod.mk 565 (KeyShareKind.hybrid 565 24 "sidh_p610"),
  Prod.mk 566 (KeyShareKind.oqs 566 "sidh_p751"),
  Prod.mk 567 (KeyShareKind.hybrid 567 25 "sidh_p751"),
  Prod.mk 568 (KeyShareKind.oqs 568 "sike_p434"),
  Prod.mk 569 (KeyShareKind.hybrid 569 23 "sike_p434"),
  Prod.mk 570 (KeyShareKind.oqs 570 "sike_p503"),
  Prod.mk 571 (KeyShareKind.hybrid 571 23 "sike_p503"),
  Prod.mk 572 (KeyShareKind.oqs 572 "sike_p610"),
  Prod.mk 573 (KeyShareKind.hybrid 573 24 "sike_p610"),
  Prod.mk 574 (KeyShareKind.oqs 574 "sike_p751"),
  Prod.mk 575 (KeyShareKind.hybrid 575 25 "sike_p751"),
  Prod.mk 576 (KeyShareKind.oqs 576 "hqc_128_1_cca2"),
  Prod.mk 577 (KeyShareKind.hybrid 577 23 "hqc_128_1_cca2"),
  Prod.mk 578 (KeyShareKind.oqs 578 "hqc_192_1_cca2"),
  Prod.mk 579 (KeyShareKind.hybrid 579 24 "hqc_192_1_cca2"),
  Prod.mk 580 (KeyShareKind.oqs 580 "hqc_192_2_cca2"),
  Prod.mk 581 (KeyShareKind.hybrid 581 24 "hqc_192_2_cca2"),
  Prod.mk 582 (KeyShareKind.oqs 582 "hqc_256_1_cca2"),
  Prod.mk 583 (KeyShareKind.hybrid 583 25 "hqc_256_1_cca2"),
  Prod.mk 584 (KeyShareKind.oqs 584 "hqc_256_2_cca2"),
  Prod.mk 585 (KeyShareKind.hybrid 585 25 "hqc_256_2_cca2"),
  Prod.mk 586 (KeyShareKind.oqs 586 "hqc_256_3_cca2"),
  Prod.mk 587 (KeyShareKind.hybrid 587 25 "hqc_256_3_cca2")]

/-- Translation of `SSLKeyShare::Create(uint16_t)`: the classical curves
and CECPQ2 unconditionally succeed; each OQS arm first checks
`OQS_KEM_alg_is_enabled` for its method and returns `none` (nullptr) when
the algorithm is disabled; unknown ids return `none`.  The switch on
distinct constants is rendered as a first-match lookup. -/
def Create (enabled : String → Bool) (gid : Nat) : Option KeyShareKind :=
  if gid = SSL_CURVE_SECP224R1 then some (.ec 713 SSL_CURVE_SECP224R1)
  else if gid = SSL_CURVE_SECP256R1 then some (.ec 415 SSL_CURVE_SECP256R1)
  else if gid = SSL_CURVE_SECP384R1 then some (.ec 715 SSL_CURVE_SECP384R1)
  else if gid = SSL_CURVE_SECP521R1 then some (.ec 716 SSL_CURVE_SECP521R1)
  else if gid = SSL_CURVE_X25519 then some .x25519
  else if gid = SSL_CURVE_CECPQ2 then some .cecpq2
  else
    match oqsCreateTable.lookup gid with
    | some kind => if enabled kind.meth then some kind else none
    | none => none

/-! ### Serialization envelope (ECKeyShare lines 129-153, X25519KeyShare
lines 194-207, `SSLKeyShare::Create(CBS*)` lines 1030-1040)

The ASN.1 codec (`CBB_add_asn1_uint64`, `CBS_get_asn1` with tag
OCTETSTRING, ...) lives in crypto/bytestring, outside src/; the envelope is
modelled as a list of ASN.1 elements rather than raw DER, with the codec
assumed to round-trip. -/

/-- One ASN.1 element of the serialized envelope: an INTEGER or an OCTET
STRING. -/
inductive Asn1
  | int (n : Nat)
  | octets (bs : Bytes)
deriving Repr, DecidableEq

/-- Translation of `ECKeyShare::Serialize`: the group id as an ASN.1
INTEGER, then the private scalar left-padded to `|order|` bytes
(`BN_bn2cbb_padded`, failing when the scalar does not fit) inside an ASN.1
OCTET STRING. -/
def ecSerialize (M : ECModel) (env : Env) (gid d : Nat) :
    Option (List Asn1) :=
  if !env.cbbOk then none
  else
    match bn2binPadded M.orderBytes d with
    | none => none
    | some bs => some [.int gid, .octets bs]

/-- Translation of `ECKeyShare::Deserialize`: read one OCTET STRING and
load the private scalar via `BN_bin2bn` (heap); no length validation of
any kind is performed on the OCTET STRING contents. -/
def ecDeserialize (env : Env) (input : List Asn1) :
    Option (Nat × List Asn1) :=
  match input with
  | .octets bs :: rest =>
    if !env.mallocOk then none else some (beToNat bs, rest)
  | _ => none

/-- Translation of `X25519KeyShare::Serialize`: the group id as an ASN.1
INTEGER, then the raw 32-byte private key as an ASN.1 OCTET STRING. -/
def x25519Serialize (env : Env) (priv : Bytes) : Option (List Asn1) :=
  if !env.cbbOk then none
  else some [.int SSL_CURVE_X25519, .octets priv]

/-- Translation of `X25519KeyShare::Deserialize`: read one OCTET STRING,
require exactly 32 bytes, copy them. -/
def x25519Deserialize (input : List Asn1) : Option (Bytes × List Asn1) :=
  match input with
  | .octets bs :: rest => if bs.length = 32 then some (bs, rest) else none
  | _ => none

/-- A backend reloaded from its serialized form. -/
inductive LoadedShare
  | ec (nid : Nat) (gid : Nat) (d : Nat)
  | x25519Share (priv : Bytes)
deriving Repr, DecidableEq

/-- Translation of `SSLKeyShare::Create(CBS*)`: parse a leading ASN.1
INTEGER, reject values above 0xffff, dispatch to `Create`, then run the
backend's `Deserialize` on the remainder.  Backends that do not override
`Deserialize` (CECPQ2, OQS, hybrid) use the base-class default, which is
not part of src/; modelled from the spec (§4.8/§6: only classical/X25519
states are serializable), it rejects. -/
def CreateFromSerialized (enabled : String → Bool) (env : Env)
    (input : List Asn1) : Option (LoadedShare × List Asn1) :=
  match input with
  | .int g :: rest =>
    if g > 0xffff then none
    else
      match Create enabled g with
      | some (.ec nid gid) =>
        (ecDeserialize env rest).map (fun p => (.ec nid gid p.1, p.2))
      | some .x25519 =>
        (x25519Deserialize rest).map (fun p => (.x25519Share p.1, p.2))
      | some _ => none
      | none => none
  | _ => none

/-! ### Signature-algorithm dispatcher (src/crypto/x509/algorithm.c) -/

/-- EVP key-type id of RSA (`EVP_PKEY_RSA` = NID_rsaEncryption = 6). -/
def EVP_PKEY_RSA : Nat := 6

/-- EVP key-type id of Ed25519 (`EVP_PKEY_ED25519` = NID_ED25519 = 949). -/
def EVP_PKEY_ED25519 : Nat := 949

/-- RSA padding mode `RSA_PKCS1_PADDING` (= 1), classical PKCS#1 v1.5. -/
def RSA_PKCS1_PADDING : Nat := 1

/-- RSA padding mode `RSA_PKCS1_PSS_PADDING` (= 6). -/
def RSA_PKCS1_PSS_PADDING : Nat := 6

/-- OID nid of RSASSA-PSS (`NID_rsassaPss` = 912). -/
def NID_rsassaPss : Nat := 912

/-- The `EVP_PKEY_*` ids of the 57 OQS signature schemes enumerated in
`x509_digest_sign_algorithm` (OQS_SIG_DEFAULT, DILITHIUM2/3/4,
FALCON512/1024, the six PICNIC variants, the nine RAINBOW variants and the
36 SPHINCS+ variants), in source order.  The numeric values come from the
fork's evp.h, which is not in src/; they are modelled as the distinct
naturals 2000..2056. -/
def oqsSigPkeyIds : List Nat :=
  [2000, 2001, 2002, 2003, 2004, 2005, 2006, 2007, 2008, 2009,
   2010, 2011, 2012, 2013, 2014, 2015, 2016, 2017, 2018, 2019,
   2020, 2021, 2022, 2023, 2024, 2025, 2026, 2027, 2028, 2029,
   2030, 2031, 2032, 2033, 2034, 2035, 2036, 2037, 2038, 2039,
   2040, 2041, 2042, 2043, 2044, 2045, 2046, 2047, 2048, 2049,
   2050, 2051, 2052, 2053, 2054, 2055, 2056]

/-- Parameter field of an emitted `AlgorithmIdentifier`: an explicit ASN.1
NULL (`V_ASN1_NULL`), an absent parameter (`V_ASN1_UNDEF`), or a populated
`RSASSA-PSS-params` structure. -/
inductive AlgorParam
  | null
  | undef
  | pssParams
deriving Repr, DecidableEq

/-- An emitted `AlgorithmIdentifier` descriptor: algorithm OID (as a nid)
plus parameter field. -/
structure X509Algor where
  oid : Nat
  param : AlgorParam
deriving Repr, DecidableEq

/-- The signing context visible to `x509_digest_sign_algorithm`: whether a
key is attached, the key-type id, the RSA padding mode (when the key is
RSA; `none` models `EVP_PKEY_CTX_get_rsa_padding` failing) and the
configured digest nid (`none` models `EVP_MD_CTX_md` returning NULL). -/
structure SignCtx where
  hasPkey : Bool
  pkeyId : Nat
  rsaPadMode : Option Nat
  digest : Option Nat
deriving Repr, DecidableEq

/-- Modelled from the spec: `x509_rsa_ctx_to_pss` lives in
crypto/x509/rsa_pss.c, which is not in src/.  Per §4.9 it builds the
descriptor through the RSA-PSS encoder with a fully populated
`RSASSA-PSS-params` parameter structure. -/
def x509_rsa_ctx_to_pss (_ctx : SignCtx) : Option X509Algor :=
  some ⟨NID_rsassaPss, .pssParams⟩

/-- Fall-through tail of `x509_digest_sign_algorithm` (everything after the
RSA-PSS special case): Ed25519 and the enumerated OQS signature key types
get `OID = key type, parameter absent`; otherwise look up the signature
OID for (digest, key) via `OBJ_find_sigid_by_algs` (abstract parameter
`findSigid`) and attach an explicit NULL parameter exactly when the key is
RSA. -/
def x509SignAlgTail (findSigid : Nat → Nat → Option Nat) (ctx : SignCtx) :
    Option X509Algor :=
  if ctx.pkeyId = EVP_PKEY_ED25519 ∨ ctx.pkeyId ∈ oqsSigPkeyIds then
    some ⟨ctx.pkeyId, .undef⟩
  else
    match ctx.digest with
    | none => none
    | some dg =>
      match findSigid dg ctx.pkeyId with
      | none => none
      | some sigNid =>
        some ⟨sigNid, if ctx.pkeyId = EVP_PKEY_RSA then .null else .undef⟩

/-- Translation of `x509_digest_sign_algorithm`: require a key; for RSA
keys read the padding mode (failing if unreadable) and divert PSS-padded
keys to the RSA-PSS encoder; otherwise fall through to the common tail. -/
def x509_digest_sign_algorithm (findSigid : Nat → Nat → Option Nat)
    (ctx : SignCtx) : Option X509Algor :=
  if !ctx.hasPkey then none
  else if ctx.pkeyId = EVP_PKEY_RSA then
    match ctx.rsaPadMode with
    | none => none
    | some pad =>
      if pad = RSA_PKCS1_PSS_PADDING then x509_rsa_ctx_to_pss ctx
      else x509SignAlgTail findSigid ctx
  else x509SignAlgTail findSigid ctx

/-! ### Honest end-to-end handshake (for the agreement claim) -/

/-- The RNG seeds consumed by one honest client/server handshake. -/
structure Rngs where
  clientA : Nat
  clientB : Nat
  serverA : Nat
  serverB : Nat
  serverE : Nat
deriving Repr, DecidableEq

/-- Honest handshake for one backend kind: the client runs `Offer`, the
server runs `Accept` on the client's offer, the client runs `Finish` on
the server's reply.  Produces `some (client_secret, server_secret)` when
all three calls succeed, `none` otherwise.  The model families give the
primitives of each curve nid and each liboqs method; the hybrid arm
instantiates its classical sub-backend through `Create` on the paired
classical group id, exactly as the `ClassicalWithOQSKeyShare` constructor
does. -/
def runHandshake (ecm : Nat → ECModel) (X : X25519Model) (H : HRSSModel)
    (kem : String → KemAlg) (enabled : String → Bool) (env : Env)
    (r : Rngs) : KeyShareKind → Option (Bytes × Bytes)
  | .ec nid _ =>
    match ecOffer (ecm nid) env r.clientA with
    | none => none
    | some (d, offer) =>
      let ar := ecDefaultAccept (ecm nid) env r.serverA offer
      if ar.ok then
        match ar.publicKey, ar.secret with
        | some reply, some ssec =>
          let fr := ecFinish (ecm nid) env d reply
          if fr.ok then
            match fr.secret with
            | some cs => some (cs, ssec)
            | none => none
          else none
        | _, _ => none
      else none
  | .x25519 =>
    match x25519Offer X env r.clientA with
    | none => none
    | some (priv, offer) =>
      let ar := x25519DefaultAccept X env r.serverA offer
      if ar.ok then
        match ar.publicKey, ar.secret with
        | some reply, some ssec =>
          let fr := x25519Finish X env priv reply
          if fr.ok then
            match fr.secret with
            | some cs => some (cs, ssec)
            | none => none
          else none
        | _, _ => none
      else none
  | .cecpq2 =>
    match cecpq2Offer X H env r.clientA r.clientB with
    | none => none
    | some (st, offer) =>
      let ar := cecpq2Accept X H env r.serverA r.serverE 0 offer
      if ar.ok then
        match ar.publicKey, ar.secret with
        | some reply, some ssec =>
          let fr := cecpq2Finish X H env st.1 st.2 reply
          if fr.ok then
            match fr.secret with
            | some cs => some (cs, ssec)
            | none => none
          else none
        | _, _ => none
      else none
  | .oqs _ meth =>
    match oqsOffer (kem meth) env r.clientA with
    | none => none
    | some (sk, offer) =>
      let ar := oqsAccept (kem meth) env r.serverE 0 offer
      if ar.ok then
        match ar.publicKey, ar.secret with
        | some reply, some ssec =>
          let fr := oqsFinish (kem meth) env sk 0 reply
          if fr.ok then
            match fr.secret with
            | some cs => some (cs, ssec)
            | none => none
          else none
        | _, _ => none
      else none
  | .hybrid _ cgid meth =>
    match Create enabled cgid with
    | some (.ec nid _) =>
      match hybridOffer (ecm nid) (kem meth) env r.clientA r.clientB with
      | none => none
      | some (st, offer) =>
        match hybridAccept (ecm nid) (kem meth) env r.serverA r.serverE 0
            offer with
        | none => none
        | some ar =>
          if ar.ok then
            match ar.publicKey, ar.secret with
            | some reply, some ssec =>
              match hybridFinish (ecm nid) (kem meth) env st.1 st.2
                  reply with
              | none => none
              | some fr =>
                if fr.ok then
                  match fr.secret with
                  | some cs => some (cs, ssec)
                  | none => none
                else none
            | _, _ => none
          else none
    | _ => none

/-! ### Concrete instances used by the witness theorems -/

/-- Toy EC model (trivial point group) used to instantiate witnesses. -/
def ecW : ECModel where
  Point := Unit
  degree := 8
  orderBytes := 1
  order := 1
  randRange := fun _ => 0
  mulG := fun _ => ()
  mul := fun _ _ => ()
  xCoord := fun _ => 0
  pointToBytes := fun _ => [4]
  bytesToPoint := fun bs => if bs = [4] then some () else none

/-- Toy X25519 model used to instantiate witnesses. -/
def x25519W : X25519Model where
  keypair := fun _ => (List.replicate 32 0, List.replicate 32 1)
  scalarMult := fun _ _ => some (List.replicate 32 2)

/-- Toy HRSS model used to instantiate witnesses. -/
def hrssW : HRSSModel where
  Pub := Unit
  Priv := Unit
  pubBytes := 1
  ctBytes := 1
  keyBytes := 1
  generate := fun _ => ((), ())
  marshal := fun _ => [7]
  parse := fun bs => if bs = [7] then some () else none
  encap := fun _ _ => ([9], [3])
  decap := fun _ _ => [3]

/-- Toy liboqs KEM model used to instantiate witnesses. -/
def kemW : KemAlg where
  length_public_key := 1
  length_secret_key := 1
  length_ciphertext := 1
  length_shared_secret := 1
  keypair := fun _ => some ([5], [6])
  encaps := fun _ _ => some ([8], [2])
  decaps := fun _ _ => some [2]

/-- Toy liboqs KEM model whose encapsulation and decapsulation primitives
always fail, for the alert counterexamples. -/
def kemFailW : KemAlg where
  length_public_key := 1
  length_secret_key := 1
  length_ciphertext := 1
  length_shared_secret := 1
  keypair := fun _ => some ([5], [6])
  encaps := fun _ _ => none
  decaps := fun _ _ => none

/-! ### Helper lemmas -/

theorem natToBE_length (l n : Nat) : (natToBE l n).length = l := by
  induction l generalizing n with
  | zero => rfl
  | succ l ih => simp [natToBE, ih]

theorem beToNat_append_one (xs : Bytes) (b : Nat) :
    beToNat (xs ++ [b]) = beToNat xs * 256 + b := by
  simp [beToNat, List.foldl_append]

theorem beToNat_natToBE (l n : Nat) (h : n < 256 ^ l) :
    beToNat (natToBE l n) = n := by
  induction l generalizing n with
  | zero =>
    interval_cases n
    rfl
  | succ l ih =>
    have hdiv : n / 256 < 256 ^ l := by
      rw [Nat.div_lt_iff_lt_mul (by norm_num)]
      calc n < 256 ^ (l + 1) := h
        _ = 256 ^ l * 256 := by ring
    simp only [natToBE, beToNat_append_one, ih _ hdiv]
    omega

theorem ecW_good : ecW.Good := by
  constructor
  · intro p; rfl
  · intro p; exact ⟨[], rfl⟩
  · intro a b; rfl
  · intro p; show (0 : Nat) < 256 ^ ((8 + 7) / 8); decide
  · intro r; show (0 : Nat) < 1; decide
  · decide
  · intro p; show ([4] : Bytes).length < 65536; decide

theorem x25519W_good : x25519W.Good := by
  constructor
  · intro r; simp [x25519W]
  · intro r; simp [x25519W]
  · intro a b z h
    simp only [x25519W, Option.some.injEq] at h
    simp [← h]
  · intro r s; exact ⟨List.replicate 32 2, rfl⟩
  · intro r s; rfl

theorem hrssW_good : hrssW.Good := by
  constructor
  · intro p; rfl
  · intro p; rfl
  · intro p e; rfl
  · intro p e; rfl
  · intro sk ct; rfl
  · intro r e; rfl

theorem kemW_good : kemW.Good := by
  constructor
  · intro r; exact ⟨[5], [6], rfl⟩
  · intro r pk sk h
    simp only [kemW, Option.some.injEq, Prod.mk.injEq] at h
    simp [← h.1, kemW]
  · intro r pk sk e _; exact ⟨[8], [2], rfl⟩
  · intro pk e ct ss h
    simp only [kemW, Option.some.injEq, Prod.mk.injEq] at h
    simp [← h.1, kemW]
  · intro r pk sk e ct ss _ h
    simp only [kemW, Option.some.injEq, Prod.mk.injEq] at h
    simp [kemW, ← h.2]
  · norm_num [kemW]
  · norm_num [kemW]

/-! ### Claim theorems -/

/-- C9: for every entry of the named-group registry, looking the group id
up returns the canonical name (never the alias), looking the canonical
name up returns the group id, looking the alias up returns the group id,
and looking the nid up returns the group id. -/
theorem c9_registry_roundtrip :
    ∀ e ∈ kNamedGroups,
      SSL_get_curve_name e.group_id = some e.name ∧
      ssl_name_to_group_id e.name = some e.group_id ∧
      ssl_name_to_group_id e.aliasStr = some e.group_id ∧
      ssl_nid_to_group_id e.nid = some e.group_id := by decide

/-- Witness for C9 at the SECP256R1 registry entry. -/
theorem c9_registry_roundtrip_witness :
    SSL_get_curve_name 23 = some "P-256" ∧
    ssl_name_to_group_id "P-256" = some 23 ∧
    ssl_name_to_group_id "prime256v1" = some 23 ∧
    ssl_nid_to_group_id 415 = some 23 :=
  c9_registry_roundtrip (NamedGroup.mk 415 23 "P-256" "prime256v1")
    (by decide)

/-- C10: `ECKeyShare::Deserialize` succeeds on any parsed OCTET STRING
regardless of its length (given allocation success), including length
zero, while `X25519KeyShare::Deserialize` succeeds exactly when the OCTET
STRING is 32 bytes long. -/
theorem c10_deserialize_validation :
    ∀ (env : Env) (bs : Bytes) (rest : List Asn1),
      env.mallocOk = true →
      ecDeserialize env (Asn1.octets bs :: rest) = some (beToNat bs, rest) ∧
      x25519Deserialize (Asn1.octets bs :: rest) =
        (if bs.length = 32 then some (bs, rest) else none) := by
  intro env bs rest h
  constructor
  · simp [ecDeserialize, h]
  · rfl

/-- Witness for C10 with a zero-length OCTET STRING. -/
theorem c10_deserialize_validation_witness :
    (Env.mk true true true).mallocOk = true ∧
    ecDeserialize (Env.mk true true true) [Asn1.octets []] =
      some (beToNat [], []) ∧
    x25519Deserialize [Asn1.octets []] =
      (if ([] : Bytes).length = 32
        then some (([] : Bytes), ([] : List Asn1)) else none) :=
  ⟨rfl, c10_deserialize_validation (Env.mk true true true) [] [] rfl⟩

/-- C2: the hybrid composer reads the two 16-bit length fields from
`peer_key` with no bounds check; evaluated at a too-short `peer_key`
(empty, or holding only the first length field), both `Accept` and
`Finish` perform an out-of-bounds read (modelled as `none`) instead of
failing cleanly with `DECODE_ERROR`. -/
theorem c2_hybrid_out_of_bounds :
    ∀ (M : ECModel) (K : KemAlg) (env : Env) (rA rB alert0 d : Nat)
      (sk : Bytes),
      hybridAccept M K env rA rB alert0 [] = none ∧
      hybridFinish M K env d sk [] = none ∧
      hybridAccept M K env rA rB alert0 [0, 0] = none ∧
      hybridFinish M K env d sk [0, 0] = none := by
  intro M K env rA rB alert0 d sk
  exact ⟨rfl, rfl, rfl, rfl⟩

/-- C3 counterexample: with a KEM whose encapsulation (resp.
decapsulation) primitive fails, `OQSKeyShare::Accept` (resp. `Finish`) on
a correctly sized peer key reports `DECODE_ERROR`, not `INTERNAL_ERROR`
as the claim states. -/
theorem c3_primitive_failure_counterexample :
    (oqsAccept kemFailW (Env.mk true true true) 0 0 [0]).ok = false ∧
    (oqsAccept kemFailW (Env.mk true true true) 0 0 [0]).alert =
      SSL_AD_DECODE_ERROR ∧
    (oqsAccept kemFailW (Env.mk true true true) 0 0 [0]).alert ≠
      SSL_AD_INTERNAL_ERROR ∧
    (oqsFinish kemFailW (Env.mk true true true) [6] 0 [0]).alert =
      SSL_AD_DECODE_ERROR ∧
    (oqsFinish kemFailW (Env.mk true true true) [6] 0 [0]).alert ≠
      SSL_AD_INTERNAL_ERROR := by decide

/-- C3 (amended): in the generic PQ KEM backend a peer-key length mismatch
is reported with `DECODE_ERROR`, and failures of the encapsulation and
decapsulation primitives are also reported with `DECODE_ERROR` (not
`INTERNAL_ERROR`); a keypair failure in `Offer` produces no alert because
`Offer` has no alert out-parameter. -/
theorem c3_oqs_alerts_amended :
    ∀ (K : KemAlg) (env : Env) (rng alert0 : Nat) (sk peer : Bytes),
      (peer.length ≠ K.length_public_key →
        oqsAccept K env rng alert0 peer =
          AcceptResult.mk false none none SSL_AD_DECODE_ERROR) ∧
      (peer.length = K.length_public_key → env.mallocOk = true →
        K.encaps peer rng = none →
        oqsAccept K env rng alert0 peer =
          AcceptResult.mk false none none SSL_AD_DECODE_ERROR) ∧
      (peer.length ≠ K.length_ciphertext →
        oqsFinish K env sk alert0 peer =
          FinishResult.mk false none SSL_AD_DECODE_ERROR) ∧
      (peer.length = K.length_ciphertext → env.mallocOk = true →
        K.decaps peer sk = none →
        oqsFinish K env sk alert0 peer =
          FinishResult.mk false none SSL_AD_DECODE_ERROR) := by
  intro K env rng alert0 sk peer
  refine ⟨fun h => ?_, fun h hm he => ?_, fun h => ?_, fun h hm hd => ?_⟩
  · simp [oqsAccept, h]
  · simp [oqsAccept, h, hm, he]
  · simp [oqsFinish, h]
  · simp [oqsFinish, h, hm, hd]

/-- Witness for the amended C3: a one-byte peer key against a KEM with
two-byte public keys draws `DECODE_ERROR`. -/
theorem c3_oqs_alerts_amended_witness :
    oqsAccept kemFailW (Env.mk true true true) 0 7 [0, 0] =
      AcceptResult.mk false none none SSL_AD_DECODE_ERROR :=
  (c3_oqs_alerts_amended kemFailW (Env.mk true true true) 0 7 [] [0, 0]).1
    (by decide)

/-- C4 counterexample: `CECPQ2KeyShare::Accept` does not pre-set the alert
byte, so an allocation failure (an internal failure) returns false with
the alert left at the caller's value (here 7), not `INTERNAL_ERROR`. -/
theorem c4_internal_alert_counterexample :
    (cecpq2Accept x25519W hrssW (Env.mk false true true) 0 0 7 []).ok =
      false ∧
    (cecpq2Accept x25519W hrssW (Env.mk false true true) 0 0 7 []).alert =
      7 ∧
    (7 : Nat) ≠ SSL_AD_INTERNAL_ERROR := by decide

/-- C4 (amended): the `Finish` methods of the EC, X25519 and CECPQ2
backends and the default `SSLKeyShare::Accept` pre-set the alert to
`INTERNAL_ERROR`, so internal (allocation) failures there report
`INTERNAL_ERROR`; but `CECPQ2KeyShare::Accept`, `OQSKeyShare::Accept` and
`OQSKeyShare::Finish` never write the alert on an allocation failure,
leaving the caller's initial value unchanged. -/
theorem c4_internal_alerts_amended :
    ∀ (M : ECModel) (X : X25519Model) (H : HRSSModel) (K : KemAlg)
      (env : Env) (d rng rngE alert0 : Nat) (xpriv sk peer : Bytes)
      (hpriv : H.Priv),
      (env.mallocOk = false →
        ecFinish M env d peer =
          FinishResult.mk false none SSL_AD_INTERNAL_ERROR ∧
        x25519Finish X env xpriv peer =
          FinishResult.mk false none SSL_AD_INTERNAL_ERROR ∧
        cecpq2Finish X H env xpriv hpriv peer =
          FinishResult.mk false none SSL_AD_INTERNAL_ERROR ∧
        ecDefaultAccept M env rng peer =
          AcceptResult.mk false none none SSL_AD_INTERNAL_ERROR ∧
        cecpq2Accept X H env rng rngE alert0 peer =
          AcceptResult.mk false none none alert0) ∧
      (env.mallocOk = false → peer.length = K.length_public_key →
        oqsAccept K env rng alert0 peer =
          AcceptResult.mk false none none alert0) ∧
      (env.mallocOk = false → peer.length = K.length_ciphertext →
        oqsFinish K env sk alert0 peer =
          FinishResult.mk false none alert0) := by
  intro M X H K env d rng rngE alert0 xpriv sk peer hpriv
  refine ⟨fun h => ⟨?_, ?_, ?_, ?_, ?_⟩, fun h hl => ?_, fun h hl => ?_⟩
  · simp [ecFinish, h]
  · simp [x25519Finish, h]
  · simp [cecpq2Finish, h]
  · simp [ecDefaultAccept, ecOffer, h]
  · simp [cecpq2Accept, h]
  · simp [oqsAccept, h, hl]
  · simp [oqsFinish, h, hl]

/-- Witness for the amended C4: allocation failure leaves the EC `Finish`
alert at `INTERNAL_ERROR` and leaves the CECPQ2 `Accept` alert at the
caller's value 7. -/
theorem c4_internal_alerts_amended_witness :
    ecFinish ecW (Env.mk false true true) 0 [] =
      FinishResult.mk false none SSL_AD_INTERNAL_ERROR ∧
    cecpq2Accept x25519W hrssW (Env.mk false true true) 0 0 7 [] =
      AcceptResult.mk false none none 7 :=
  ⟨((c4_internal_alerts_amended ecW x25519W hrssW kemW
      (Env.mk false true true) 0 0 0 7 [] [] [] ()).1 rfl).1,
    (((c4_internal_alerts_amended ecW x25519W hrssW kemW
      (Env.mk false true true) 0 0 0 7 [] [] [] ()).1 rfl).2.2).2.2⟩

/-- C5: `ECKeyShare::Finish` rejects an empty peer key, a peer key not
starting with 0x04 and a peer key that does not parse as a point, with
`DECODE_ERROR`; on a well-formed peer point it succeeds with the secret
equal to the affine x-coordinate of `d·P` left-padded to exactly
`ceil(field_bits / 8)` bytes. -/
theorem c5_ec_finish :
    ∀ (M : ECModel), M.Good →
    ∀ (env : Env) (d : Nat) (peer : Bytes),
      env.mallocOk = true →
      ((peer = [] ∨ peer.head? ≠ some 4 ∨ M.bytesToPoint peer = none) →
        ecFinish M env d peer =
          FinishResult.mk false none SSL_AD_DECODE_ERROR) ∧
      (∀ P, peer.head? = some 4 → M.bytesToPoint peer = some P →
        ecFinish M env d peer =
          FinishResult.mk true
            (some (natToBE ((M.degree + 7) / 8) (M.xCoord (M.mul d P))))
            SSL_AD_INTERNAL_ERROR ∧
        (natToBE ((M.degree + 7) / 8) (M.xCoord (M.mul d P))).length =
          (M.degree + 7) / 8) := by
  intro M G env d peer hm
  constructor
  · intro h
    cases peer with
    | nil => simp [ecFinish, hm]
    | cons b t =>
      rcases h with h | h | h
      · exact absurd h (by simp)
      · have hb : b ≠ 4 := by simpa using h
        simp [ecFinish, hm, hb]
      · by_cases hb : b = 4
        · subst hb; simp [ecFinish, hm, h]
        · simp [ecFinish, hm, hb]
  · intro P hhead hparse
    cases peer with
    | nil => simp at hhead
    | cons b t =>
      have hb : b = 4 := by simpa using hhead
      subst hb
      have hfit := G.xCoord_lt (M.mul d P)
      exact ⟨by simp [ecFinish, hm, hparse, bn2binPadded, hfit],
        natToBE_length _ _⟩

/-- Witness for C5: the toy model accepts the well-formed point `[4]` and
produces the padded x-coordinate. -/
theorem c5_ec_finish_witness :
    ecFinish ecW (Env.mk true true true) 5 [4] =
      FinishResult.mk true (some (natToBE 1 0)) SSL_AD_INTERNAL_ERROR ∧
    (natToBE 1 0).length = 1 :=
  (c5_ec_finish ecW ecW_good (Env.mk true true true) 5 [4] rfl).2 () rfl rfl

/-- C6: `CECPQ2KeyShare::Accept` fails with `DECODE_ERROR` on every peer
key whose length is not `32 + HRSS_PUBLIC_KEY_BYTES`, `Finish` fails with
`DECODE_ERROR` on every peer key whose length is not
`32 + HRSS_CIPHERTEXT_BYTES`, and on success both produce a secret of
exactly `32 + HRSS_KEY_BYTES` bytes, the 32-byte X25519 secret followed by
the HRSS secret. -/
theorem c6_cecpq2_lengths :
    ∀ (X : X25519Model) (H : HRSSModel), X.Good → H.Good →
    ∀ (env : Env) (rngX rngE alert0 : Nat) (xpriv : Bytes) (hpriv : H.Priv)
      (peer : Bytes),
      env.mallocOk = true →
      (peer.length ≠ 32 + H.pubBytes →
        cecpq2Accept X H env rngX rngE alert0 peer =
          AcceptResult.mk false none none SSL_AD_DECODE_ERROR) ∧
      (peer.length ≠ 32 + H.ctBytes →
        cecpq2Finish X H env xpriv hpriv peer =
          FinishResult.mk false none SSL_AD_DECODE_ERROR) ∧
      ((cecpq2Accept X H env rngX rngE alert0 peer).ok = true →
        ∃ xsec hsec,
          (cecpq2Accept X H env rngX rngE alert0 peer).secret =
            some (xsec ++ hsec) ∧
          xsec.length = 32 ∧ hsec.length = H.keyBytes ∧
          (xsec ++ hsec).length = 32 + H.keyBytes) ∧
      ((cecpq2Finish X H env xpriv hpriv peer).ok = true →
        ∃ xsec hsec,
          (cecpq2Finish X H env xpriv hpriv peer).secret =
            some (xsec ++ hsec) ∧
          xsec.length = 32 ∧ hsec.length = H.keyBytes ∧
          (xsec ++ hsec).length = 32 + H.keyBytes) := by
  intro X H GX GH env rngX rngE alert0 xpriv hpriv peer hm
  refine ⟨fun h => by simp [cecpq2Accept, hm, h],
    fun h => by simp [cecpq2Finish, hm, h], ?_, ?_⟩
  · intro hok
    by_cases hlen : peer.length = 32 + H.pubBytes
    · cases hp : H.parse (peer.drop 32) with
      | none => simp [cecpq2Accept, hm, hlen, hp] at hok
      | some hpub =>
        cases hs : X.scalarMult (X.keypair rngX).2 (peer.take 32) with
        | none => simp [cecpq2Accept, hm, hlen, hp, hs] at hok
        | some xsec =>
          cases hc : env.cbbOk with
          | false => simp [cecpq2Accept, hm, hlen, hp, hs, hc] at hok
          | true =>
            have hx := GX.out_len _ _ _ hs
            have hh := GH.encap_ss_len hpub rngE
            refine ⟨xsec, (H.encap hpub rngE).2, ?_, hx, hh, ?_⟩
            · simp [cecpq2Accept, hm, hlen, hp, hs, hc]
            · simp [hx, hh]
    · simp [cecpq2Accept, hm, hlen] at hok
  · intro hok
    by_cases hlen : peer.length = 32 + H.ctBytes
    · cases hs : X.scalarMult xpriv (peer.take 32) with
      | none => simp [cecpq2Finish, hm, hlen, hs] at hok
      | some xsec =>
        have hx := GX.out_len _ _ _ hs
        have hh := GH.decap_len hpriv (peer.drop 32)
        refine ⟨xsec, H.decap hpriv (peer.drop 32), ?_, hx, hh, ?_⟩
        · simp [cecpq2Finish, hm, hlen, hs]
        · simp [hx, hh]
    · simp [cecpq2Finish, hm, hlen] at hok

/-- Witness for C6: an empty peer key (length 0, not 32 + 1) draws
`DECODE_ERROR` from the toy CECPQ2 accept. -/
theorem c6_cecpq2_lengths_witness :
    cecpq2Accept x25519W hrssW (Env.mk true true true) 0 0 3 [] =
      AcceptResult.mk false none none SSL_AD_DECODE_ERROR :=
  (c6_cecpq2_lengths x25519W hrssW x25519W_good hrssW_good
    (Env.mk true true true) 0 0 3 [] () [] rfl).1 (by decide)

/-- C7: whenever the signature-algorithm encoder succeeds, an RSA key with
PKCS#1 v1.5 padding gets an explicit NULL parameter, an Ed25519 or
enumerated PQ signature key gets an absent parameter with the OID equal to
the key type, and an RSA key with PSS padding gets the descriptor built by
the RSA-PSS encoder with a populated RSASSA-PSS-params parameter. -/
theorem c7_sign_algorithm_params :
    ∀ (findSigid : Nat → Nat → Option Nat) (ctx : SignCtx)
      (algor : X509Algor),
      x509_digest_sign_algorithm findSigid ctx = some algor →
      (ctx.pkeyId = EVP_PKEY_RSA →
        ctx.rsaPadMode = some RSA_PKCS1_PADDING →
        algor.param = AlgorParam.null) ∧
      ((ctx.pkeyId = EVP_PKEY_ED25519 ∨ ctx.pkeyId ∈ oqsSigPkeyIds) →
        algor = X509Algor.mk ctx.pkeyId AlgorParam.undef) ∧
      (ctx.pkeyId = EVP_PKEY_RSA →
        ctx.rsaPadMode = some RSA_PKCS1_PSS_PADDING →
        x509_rsa_ctx_to_pss ctx = some algor ∧
        algor.param = AlgorParam.pssParams) := by
  intro f ctx algor h
  obtain ⟨hasP, pid, pad, dg⟩ := ctx
  refine ⟨fun hr hpad => ?_, fun hed => ?_, fun hr hpad => ?_⟩
  · simp only at hr hpad
    subst hr
    subst hpad
    cases hasP with
    | false => simp [x509_digest_sign_algorithm] at h
    | true =>
      simp only [x509_digest_sign_algorithm, x509SignAlgTail] at h
      norm_num [EVP_PKEY_RSA, EVP_PKEY_ED25519, RSA_PKCS1_PADDING,
        RSA_PKCS1_PSS_PADDING, oqsSigPkeyIds] at h
      cases dg with
      | none => simp at h
      | some dgv =>
        cases hf : f dgv 6 with
        | none => simp [hf] at h
        | some sig =>
          simp only [hf, Option.some.injEq] at h
          rw [← h]
  · have hne : pid ≠ EVP_PKEY_RSA := by
      rcases hed with h9 | hin
      · simp only at h9; subst h9; decide
      · simp only at hin
        intro heq
        rw [heq] at hin
        exact absurd hin (by decide)
    simp only at hed hne
    cases hasP with
    | false => simp [x509_digest_sign_algorithm] at h
    | true =>
      simp only [x509_digest_sign_algorithm, x509SignAlgTail, Bool.not_true,
        Bool.false_eq_true, if_false, if_neg hne, if_pos hed,
        Option.some.injEq] at h
      simp [← h]
  · simp only at hr hpad
    subst hr
    subst hpad
    cases hasP with
    | false => simp [x509_digest_sign_algorithm] at h
    | true =>
      simp only [x509_digest_sign_algorithm] at h
      norm_num [EVP_PKEY_RSA, RSA_PKCS1_PSS_PADDING] at h
      refine ⟨h, ?_⟩
      simp only [x509_rsa_ctx_to_pss, Option.some.injEq] at h
      rw [← h]


/-- Witness for C7: an RSA PKCS#1 v1.5 signing context with a digest whose
lookup succeeds yields an explicit NULL parameter. -/
theorem c7_sign_algorithm_params_witness :
    (X509Algor.mk 668 AlgorParam.null).param = AlgorParam.null :=
  (c7_sign_algorithm_params (fun _ _ => some 668)
    (SignCtx.mk true EVP_PKEY_RSA (some RSA_PKCS1_PADDING) (some 672))
    (X509Algor.mk 668 AlgorParam.null) (by decide)).1 rfl rfl

/-- C8: for an Offered classical EC or X25519 backend, deserializing the
output of `Serialize` through `SSLKeyShare::Create(CBS*)` reloads a
backend whose private key is byte-identical, so its `Finish` agrees with
the original on every peer key. -/
theorem c8_serialize_roundtrip :
    ∀ (M : ECModel), M.Good →
    ∀ (enabled : String → Bool) (env : Env) (gid nid d : Nat)
      (priv : Bytes),
      env.mallocOk = true → env.cbbOk = true → gid ≤ 0xffff →
      (Create enabled gid = some (KeyShareKind.ec nid gid) → d < M.order →
        ∃ ser d2,
          ecSerialize M env gid d = some ser ∧
          CreateFromSerialized enabled env ser =
            some (LoadedShare.ec nid gid d2, []) ∧
          ∀ peer, ecFinish M env d2 peer = ecFinish M env d peer) ∧
      (Create enabled gid = some KeyShareKind.x25519 → priv.length = 32 →
        ∃ ser p2,
          x25519Serialize env priv = some ser ∧
          CreateFromSerialized enabled env ser =
            some (LoadedShare.x25519Share p2, []) ∧
          ∀ X peer, x25519Finish X env p2 peer =
            x25519Finish X env priv peer) := by
  intro M G enabled env gid nid d priv hm hc hgid
  constructor
  · intro hcr hd
    have hfit : d < 256 ^ M.orderBytes := lt_of_lt_of_le hd G.order_le
    refine ⟨[Asn1.int gid, Asn1.octets (natToBE M.orderBytes d)], d,
      ?_, ?_, fun peer => rfl⟩
    · simp [ecSerialize, hc, bn2binPadded, hfit]
    · have hng : ¬ gid > 0xffff := by omega
      simp [CreateFromSerialized, hng, hcr, ecDeserialize, hm,
        beToNat_natToBE _ _ hfit]
  · intro hcr hp
    have hx : Create enabled SSL_CURVE_X25519 = some KeyShareKind.x25519 :=
      rfl
    refine ⟨[Asn1.int SSL_CURVE_X25519, Asn1.octets priv], priv,
      ?_, ?_, fun X peer => rfl⟩
    · simp [x25519Serialize, hc]
    · have hng : ¬ SSL_CURVE_X25519 > 0xffff := by decide
      simp [CreateFromSerialized, hng, hx, x25519Deserialize, hp]

/-- Witness for C8 at the SECP256R1 factory entry with the toy EC model
and the zero scalar. -/
theorem c8_serialize_roundtrip_witness :
    ∃ ser d2,
      ecSerialize ecW (Env.mk true true true) 23 0 = some ser ∧
      CreateFromSerialized (fun _ => true) (Env.mk true true true) ser =
        some (LoadedShare.ec 415 23 d2, []) ∧
      ∀ peer, ecFinish ecW (Env.mk true true true) d2 peer =
        ecFinish ecW (Env.mk true true true) 0 peer :=
  (c8_serialize_roundtrip ecW ecW_good (fun _ => true)
    (Env.mk true true true) 23 415 0 [] rfl rfl (by decide)).1 (by decide)
    (by decide)

/-! ### Agreement: helper lemmas -/

theorem ecOffer_eq (M : ECModel) {env : Env} (rng : Nat)
    (hm : env.mallocOk = true) (hr : env.rngOk = true)
    (hc : env.cbbOk = true) :
    ecOffer M env rng =
      some (M.randRange rng, M.pointToBytes (M.mulG (M.randRange rng))) := by
  simp [ecOffer, hm, hr, hc]

theorem ecFinish_honest (M : ECModel) (G : M.Good) {env : Env}
    (hm : env.mallocOk = true) (d e : Nat) :
    ecFinish M env d (M.pointToBytes (M.mulG e)) =
      FinishResult.mk true
        (some (natToBE ((M.degree + 7) / 8)
          (M.xCoord (M.mul d (M.mulG e)))))
        SSL_AD_INTERNAL_ERROR := by
  obtain ⟨t, ht⟩ := G.marshal_head (M.mulG e)
  have hp := G.parse_marshal (M.mulG e)
  have hfit := G.xCoord_lt (M.mul d (M.mulG e))
  rw [ht] at hp ⊢
  simp [ecFinish, hm, hp, bn2binPadded, hfit]

theorem ecDefaultAccept_honest (M : ECModel) (G : M.Good) {env : Env}
    (hm : env.mallocOk = true) (hr : env.rngOk = true)
    (hc : env.cbbOk = true) (rng e : Nat) :
    ecDefaultAccept M env rng (M.pointToBytes (M.mulG e)) =
      AcceptResult.mk true
        (some (M.pointToBytes (M.mulG (M.randRange rng))))
        (some (natToBE ((M.degree + 7) / 8)
          (M.xCoord (M.mul (M.randRange rng) (M.mulG e)))))
        SSL_AD_INTERNAL_ERROR := by
  rw [ecDefaultAccept, ecOffer_eq M rng hm hr hc]
  simp [ecFinish_honest M G hm]

theorem x25519Offer_eq (X : X25519Model) {env : Env} (rng : Nat)
    (hc : env.cbbOk = true) :
    x25519Offer X env rng =
      some ((X.keypair rng).2, (X.keypair rng).1) := by
  simp [x25519Offer, hc]

theorem x25519Finish_honest (X : X25519Model) {env : Env}
    (hm : env.mallocOk = true) {priv peer z : Bytes}
    (hlen : peer.length = 32) (hz : X.scalarMult priv peer = some z) :
    x25519Finish X env priv peer =
      FinishResult.mk true (some z) SSL_AD_INTERNAL_ERROR := by
  simp [x25519Finish, hm, hlen, hz]

theorem cecpq2Offer_eq (X : X25519Model) (H : HRSSModel) {env : Env}
    (rX rH : Nat) (hc : env.cbbOk = true) :
    cecpq2Offer X H env rX rH =
      some (((X.keypair rX).2, (H.generate rH).2),
        (X.keypair rX).1 ++ H.marshal (H.generate rH).1) := by
  simp [cecpq2Offer, hc]

theorem cecpq2Accept_honest (X : X25519Model) (H : HRSSModel)
    (GX : X.Good) (GH : H.Good) {env : Env} (hm : env.mallocOk = true)
    (hc : env.cbbOk = true) (rX rE cA cB alert0 : Nat) {z : Bytes}
    (hz : X.scalarMult (X.keypair rX).2 (X.keypair cA).1 = some z) :
    cecpq2Accept X H env rX rE alert0
        ((X.keypair cA).1 ++ H.marshal (H.generate cB).1) =
      AcceptResult.mk true
        (some ((X.keypair rX).1 ++ (H.encap (H.generate cB).1 rE).1))
        (some (z ++ (H.encap (H.generate cB).1 rE).2)) alert0 := by
  have hlen :
      ((X.keypair cA).1 ++ H.marshal (H.generate cB).1).length =
        32 + H.pubBytes := by
    simp [GX.pub_len, GH.marshal_len]
  have hdrop :
      ((X.keypair cA).1 ++ H.marshal (H.generate cB).1).drop 32 =
        H.marshal (H.generate cB).1 := by
    rw [← GX.pub_len cA]
    exact List.drop_left _ _
  have htake :
      ((X.keypair cA).1 ++ H.marshal (H.generate cB).1).take 32 =
        (X.keypair cA).1 := by
    rw [← GX.pub_len cA]
    exact List.take_left _ _
  simp [cecpq2Accept, hm, hlen, hdrop, htake, GH.parse_marshal, hz, hc]

theorem cecpq2Finish_honest (X : X25519Model) (H : HRSSModel)
    {env : Env} (hm : env.mallocOk = true) (xpriv : Bytes)
    (hpriv : H.Priv) {spub ct z : Bytes} (hslen : spub.length = 32)
    (hctlen : ct.length = H.ctBytes)
    (hz : X.scalarMult xpriv spub = some z) :
    cecpq2Finish X H env xpriv hpriv (spub ++ ct) =
      FinishResult.mk true (some (z ++ H.decap hpriv ct))
        SSL_AD_INTERNAL_ERROR := by
  have hlen : (spub ++ ct).length = 32 + H.ctBytes := by
    simp [hslen, hctlen]
  have hdrop : (spub ++ ct).drop 32 = ct := by
    rw [← hslen]; exact List.drop_left _ _
  have htake : (spub ++ ct).take 32 = spub := by
    rw [← hslen]; exact List.take_left _ _
  simp [cecpq2Finish, hm, hlen, hdrop, htake, hz]

theorem oqsOffer_eq (K : KemAlg) {env : Env} (rng : Nat)
    (hm : env.mallocOk = true) (hc : env.cbbOk = true) {pk sk : Bytes}
    (hkp : K.keypair rng = some (pk, sk)) :
    oqsOffer K env rng = some (sk, pk) := by
  simp [oqsOffer, hm, hc, hkp]

theorem oqsAccept_honest (K : KemAlg) (GK : K.Good) {env : Env}
    (hm : env.mallocOk = true) (hc : env.cbbOk = true)
    (rng alert0 r : Nat) {pk sk ct ssb : Bytes}
    (hkp : K.keypair r = some (pk, sk))
    (hct : K.encaps pk rng = some (ct, ssb)) :
    oqsAccept K env rng alert0 pk =
      AcceptResult.mk true (some ct) (some ssb) alert0 := by
  have hlen : pk.length = K.length_public_key :=
    GK.keypair_pk_len _ _ _ hkp
  simp [oqsAccept, hlen, hm, hct, hc]

theorem oqsFinish_honest (K : KemAlg) (GK : K.Good) {env : Env}
    (hm : env.mallocOk = true) (alert0 rng r : Nat) {pk sk ct ssb : Bytes}
    (hkp : K.keypair r = some (pk, sk))
    (hct : K.encaps pk rng = some (ct, ssb)) :
    oqsFinish K env sk alert0 ct =
      FinishResult.mk true (some ssb) alert0 := by
  have hlen : ct.length = K.length_ciphertext :=
    GK.encaps_ct_len _ _ _ _ hct
  have hd : K.decaps ct sk = some ssb :=
    GK.decap_encap _ _ _ _ _ _ hkp hct
  simp [oqsFinish, hlen, hm, hd]

/-- Parsing facts about the hybrid length-prefixed framing
`u16(|a|) ‖ a ‖ u16(|b|) ‖ b`. -/
theorem frame_fields (a b : Bytes) (ha : a.length < 65536)
    (hb : b.length < 65536) :
    (addU16 a.length ++ a ++ addU16 b.length ++ b).get? 0 =
      some (a.length / 256 % 256) ∧
    (addU16 a.length ++ a ++ addU16 b.length ++ b).get? 1 =
      some (a.length % 256) ∧
    a.length / 256 % 256 * 256 + a.length % 256 = a.length ∧
    (addU16 a.length ++ a ++ addU16 b.length ++ b).get? (2 + a.length) =
      some (b.length / 256 % 256) ∧
    (addU16 a.length ++ a ++ addU16 b.length ++ b).get?
        (2 + a.length + 1) = some (b.length % 256) ∧
    b.length / 256 % 256 * 256 + b.length % 256 = b.length ∧
    ((addU16 a.length ++ a ++ addU16 b.length ++ b).drop 2).take
      a.length = a ∧
    ((addU16 a.length ++ a ++ addU16 b.length ++ b).drop
      (2 + a.length + 2)).take b.length = b := by
  have hw : addU16 a.length ++ a ++ addU16 b.length ++ b =
      a.length / 256 % 256 :: a.length % 256 ::
        (a ++ (b.length / 256 % 256 :: b.length % 256 :: b)) := by
    simp [addU16]
  rw [hw]
  have harith : a.length / 256 % 256 * 256 + a.length % 256 =
      a.length := by omega
  have harithb : b.length / 256 % 256 * 256 + b.length % 256 =
      b.length := by omega
  have h2L : 2 + a.length = a.length + 1 + 1 := by omega
  have h2L1 : 2 + a.length + 1 = a.length + 1 + 1 + 1 := by omega
  refine ⟨rfl, rfl, harith, ?_, ?_, harithb, ?_, ?_⟩
  · rw [h2L, List.get?_cons_succ, List.get?_cons_succ,
      List.get?_append_right (Nat.le_refl _), Nat.sub_self]
    rfl
  · have h5 : a.length + 1 - a.length = 1 := by omega
    rw [h2L1, List.get?_cons_succ, List.get?_cons_succ,
      List.get?_append_right (Nat.le_succ_of_le (Nat.le_refl _)), h5]
    rfl
  · exact List.take_left a _
  · have hidx : 2 + a.length + 2 = a.length + 2 + 1 + 1 := by omega
    rw [hidx, List.drop_succ_cons, List.drop_succ_cons,
      ← List.drop_drop, List.drop_left]
    exact List.take_length b

/-- Honest run of the hybrid `Accept` on a framed offer whose classical
half is an honest EC offer and whose PQ half is an honest KEM public
key. -/
theorem hybridAccept_honest (M : ECModel) (K : KemAlg) (G : M.Good)
    (GK : K.Good) {env : Env} (hm : env.mallocOk = true)
    (hr : env.rngOk = true) (hc : env.cbbOk = true)
    (rCS rPS alert0 e r : Nat) {pk sk ct ssb : Bytes}
    (hkp : K.keypair r = some (pk, sk))
    (hct : K.encaps pk rPS = some (ct, ssb)) :
    hybridAccept M K env rCS rPS alert0
        (addU16 (M.pointToBytes (M.mulG e)).length ++
          M.pointToBytes (M.mulG e) ++ addU16 pk.length ++ pk) =
      some (AcceptResult.mk true
        (some (addU16 (M.pointToBytes (M.mulG (M.randRange rCS))).length ++
          M.pointToBytes (M.mulG (M.randRange rCS)) ++
          addU16 ct.length ++ ct))
        (some (natToBE ((M.degree + 7) / 8)
            (M.xCoord (M.mul (M.randRange rCS) (M.mulG e))) ++ ssb))
        SSL_AD_INTERNAL_ERROR) := by
  have ha := G.marshal_len_lt (M.mulG e)
  have hb : pk.length < 65536 := by
    rw [GK.keypair_pk_len _ _ _ hkp]
    exact GK.pk_len_lt
  obtain ⟨hg0, hg1, harith, hg2, hg3, harithb, hslice1, hslice2⟩ :=
    frame_fields (M.pointToBytes (M.mulG e)) pk ha hb
  rw [hybridAccept, hg0, hg1]
  simp only [harith]
  rw [hg2, hg3]
  simp only [harithb, hslice1, hslice2, hc,
    ecDefaultAccept_honest M G hm hr hc rCS e,
    oqsAccept_honest K GK hm hc rPS SSL_AD_INTERNAL_ERROR r hkp hct]
  simp

/-- Honest run of the hybrid `Finish` on a framed reply whose classical
half is an honest EC reply and whose PQ half is an honest ciphertext. -/
theorem hybridFinish_honest (M : ECModel) (K : KemAlg) (G : M.Good)
    (GK : K.Good) {env : Env} (hm : env.mallocOk = true)
    (hc : env.cbbOk = true) (d e r rng : Nat) {pk sk ct ssb : Bytes}
    (hkp : K.keypair r = some (pk, sk))
    (hct : K.encaps pk rng = some (ct, ssb)) :
    hybridFinish M K env d sk
        (addU16 (M.pointToBytes (M.mulG e)).length ++
          M.pointToBytes (M.mulG e) ++ addU16 ct.length ++ ct) =
      some (FinishResult.mk true
        (some (natToBE ((M.degree + 7) / 8)
            (M.xCoord (M.mul d (M.mulG e))) ++ ssb))
        SSL_AD_INTERNAL_ERROR) := by
  have ha := G.marshal_len_lt (M.mulG e)
  have hb : ct.length < 65536 := by
    rw [GK.encaps_ct_len _ _ _ _ hct]
    exact GK.ct_len_lt
  obtain ⟨hg0, hg1, harith, hg2, hg3, harithb, hslice1, hslice2⟩ :=
    frame_fields (M.pointToBytes (M.mulG e)) ct ha hb
  rw [hybridFinish, hg0, hg1]
  simp only [harith]
  rw [hg2, hg3]
  simp only [harithb, hslice1, hslice2,
    ecFinish_honest M G hm d e,
    oqsFinish_honest K GK hm SSL_AD_INTERNAL_ERROR rng r hkp hct]
  simp [hc]

theorem x25519DefaultAccept_eq (X : X25519Model) {env : Env} (rng : Nat)
    (hc : env.cbbOk = true) (peer : Bytes) :
    x25519DefaultAccept X env rng peer =
      AcceptResult.mk (x25519Finish X env (X.keypair rng).2 peer).ok
        (some (X.keypair rng).1)
        (x25519Finish X env (X.keypair rng).2 peer).secret
        (x25519Finish X env (X.keypair rng).2 peer).alert := by
  unfold x25519DefaultAccept
  rw [x25519Offer_eq X rng hc]

/-- C1: for every supported group id (every id the factory accepts), an
honest client Offer, server Accept on the offer and client Finish on the
reply derive byte-equal shared secrets, assuming the underlying primitives
behave as specified (`Good` models); a run in which an internal RNG or
allocation failure occurred produces `none` and is excluded by
hypothesis. -/
theorem c1_agreement :
    ∀ (ecm : Nat → ECModel) (X : X25519Model) (H : HRSSModel)
      (kem : String → KemAlg) (enabled : String → Bool) (env : Env)
      (r : Rngs) (gid : Nat) (kind : KeyShareKind) (cs ss : Bytes),
      (∀ n, (ecm n).Good) → X.Good → H.Good → (∀ m, (kem m).Good) →
      Create enabled gid = some kind →
      runHandshake ecm X H kem enabled env r kind = some (cs, ss) →
      cs = ss := by
  intro ecm X H kem enabled env r gid kind cs ss Gec GX GH Gkem _ hRun
  cases kind with
  | ec nid gid2 =>
    rw [runHandshake] at hRun
    cases hm : env.mallocOk with
    | false => simp [ecOffer, hm] at hRun
    | true =>
    cases hr2 : env.rngOk with
    | false => simp [ecOffer, hm, hr2] at hRun
    | true =>
    cases hc : env.cbbOk with
    | false => simp [ecOffer, hm, hr2, hc] at hRun
    | true =>
      rw [ecOffer_eq (ecm nid) r.clientA hm hr2 hc] at hRun
      simp only [ecDefaultAccept_honest (ecm nid) (Gec nid) hm hr2 hc
        r.serverA, ecFinish_honest (ecm nid) (Gec nid) hm] at hRun
      simp only [if_true, Option.some.injEq, Prod.mk.injEq] at hRun
      rw [← hRun.1, ← hRun.2, (Gec nid).mul_comm_base]
  | x25519 =>
    rw [runHandshake] at hRun
    cases hc : env.cbbOk with
    | false => simp [x25519Offer, hc] at hRun
    | true =>
    cases hm : env.mallocOk with
    | false =>
      rw [x25519Offer_eq X r.clientA hc] at hRun
      simp [x25519DefaultAccept_eq X r.serverA hc, x25519Finish, hm]
        at hRun
    | true =>
      obtain ⟨zs, hzs⟩ := GX.dh_some r.serverA r.clientA
      obtain ⟨zc, hzc⟩ := GX.dh_some r.clientA r.serverA
      rw [x25519Offer_eq X r.clientA hc] at hRun
      simp only [x25519DefaultAccept_eq X r.serverA hc,
        x25519Finish_honest X hm (GX.pub_len r.clientA) hzs,
        x25519Finish_honest X hm (GX.pub_len r.serverA) hzc] at hRun
      simp only [if_true, Option.some.injEq, Prod.mk.injEq] at hRun
      rw [← hRun.1, ← hRun.2]
      have hcomm := GX.dh_comm r.clientA r.serverA
      rw [hzc, hzs] at hcomm
      exact Option.some.inj hcomm
  | cecpq2 =>
    rw [runHandshake] at hRun
    cases hc : env.cbbOk with
    | false => simp [cecpq2Offer, hc] at hRun
    | true =>
    cases hm : env.mallocOk with
    | false =>
      rw [cecpq2Offer_eq X H r.clientA r.clientB hc] at hRun
      simp [cecpq2Accept, hm] at hRun
    | true =>
      obtain ⟨zs, hzs⟩ := GX.dh_some r.serverA r.clientA
      obtain ⟨zc, hzc⟩ := GX.dh_some r.clientA r.serverA
      rw [cecpq2Offer_eq X H r.clientA r.clientB hc] at hRun
      simp only [cecpq2Accept_honest X H GX GH hm hc r.serverA r.serverE
        r.clientA r.clientB 0 hzs] at hRun
      simp only [cecpq2Finish_honest X H hm (X.keypair r.clientA).2
        (H.generate r.clientB).2 (GX.pub_len r.serverA)
        (GH.encap_ct_len _ _) hzc] at hRun
      simp only [if_true, Option.some.injEq, Prod.mk.injEq] at hRun
      rw [← hRun.1, ← hRun.2]
      have hzz : zc = zs := by
        have hcomm := GX.dh_comm r.clientA r.serverA
        rw [hzc, hzs] at hcomm
        exact Option.some.inj hcomm
      rw [hzz, GH.decap_encap]
  | oqs gid2 meth =>
    rw [runHandshake] at hRun
    obtain ⟨pk, sk, hkp⟩ := (Gkem meth).keypair_some r.clientA
    cases hm : env.mallocOk with
    | false => simp [oqsOffer, hm] at hRun
    | true =>
    cases hc : env.cbbOk with
    | false => simp [oqsOffer, hm, hc, hkp] at hRun
    | true =>
      obtain ⟨ct, ssb, hct⟩ :=
        (Gkem meth).encaps_some r.clientA pk sk r.serverE hkp
      rw [oqsOffer_eq (kem meth) r.clientA hm hc hkp] at hRun
      simp only [oqsAccept_honest (kem meth) (Gkem meth) hm hc r.serverE
        0 r.clientA hkp hct] at hRun
      simp only [oqsFinish_honest (kem meth) (Gkem meth) hm 0 r.serverE
        r.clientA hkp hct] at hRun
      simp only [if_true, Option.some.injEq, Prod.mk.injEq] at hRun
      rw [← hRun.1, ← hRun.2]
  | hybrid gid2 cgid meth =>
    rw [runHandshake] at hRun
    cases hcr : Create enabled cgid with
    | none => rw [hcr] at hRun; simp at hRun
    | some ckind =>
      rw [hcr] at hRun
      cases ckind with
      | x25519 => simp at hRun
      | cecpq2 => simp at hRun
      | oqs g m => simp at hRun
      | hybrid g c m => simp at hRun
      | ec nid cgid2 =>
        simp only [] at hRun
        obtain ⟨pk, skp, hkp⟩ := (Gkem meth).keypair_some r.clientB
        cases hc : env.cbbOk with
        | false => simp [hybridOffer, hc] at hRun
        | true =>
        cases hm : env.mallocOk with
        | false => simp [hybridOffer, hc, ecOffer, hm] at hRun
        | true =>
        cases hr2 : env.rngOk with
        | false => simp [hybridOffer, hc, ecOffer, hm, hr2] at hRun
        | true =>
          obtain ⟨ct, ssb, hct⟩ :=
            (Gkem meth).encaps_some r.clientB pk skp r.serverE hkp
          have hOeq : hybridOffer (ecm nid) (kem meth) env r.clientA
              r.clientB =
              some (((ecm nid).randRange r.clientA, skp),
                addU16 ((ecm nid).pointToBytes ((ecm nid).mulG
                    ((ecm nid).randRange r.clientA))).length ++
                  (ecm nid).pointToBytes ((ecm nid).mulG
                    ((ecm nid).randRange r.clientA)) ++
                  addU16 pk.length ++ pk) := by
            unfold hybridOffer
            rw [ecOffer_eq (ecm nid) r.clientA hm hr2 hc,
              oqsOffer_eq (kem meth) r.clientB hm hc hkp]
            simp [hc]
          rw [hOeq] at hRun
          simp only [hybridAccept_honest (ecm nid) (kem meth) (Gec nid)
            (Gkem meth) hm hr2 hc r.serverA r.serverE 0
            ((ecm nid).randRange r.clientA) r.clientB hkp hct] at hRun
          simp only [hybridFinish_honest (ecm nid) (kem meth) (Gec nid)
            (Gkem meth) hm hc ((ecm nid).randRange r.clientA)
            ((ecm nid).randRange r.serverA) r.clientB r.serverE hkp
            hct] at hRun
          simp only [if_true, Option.some.injEq, Prod.mk.injEq] at hRun
          rw [← hRun.1, ← hRun.2, (Gec nid).mul_comm_base]


/-- Witness for C1: the X25519 group id 29 with the toy models; both
sides derive the 32-byte secret of the toy scalar-multiplication. -/
theorem c1_agreement_witness :
    runHandshake (fun _ => ecW) x25519W hrssW (fun _ => kemW)
        (fun _ => true) (Env.mk true true true) (Rngs.mk 0 0 0 0 0)
        KeyShareKind.x25519 =
      some (List.replicate 32 2, List.replicate 32 2) ∧
    (List.replicate 32 2 : Bytes) = List.replicate 32 2 :=
  ⟨by decide,
    c1_agreement (fun _ => ecW) x25519W hrssW (fun _ => kemW)
      (fun _ => true) (Env.mk true true true) (Rngs.mk 0 0 0 0 0) 29
      KeyShareKind.x25519 (List.replicate 32 2) (List.replicate 32 2)
      (fun _ => ecW_good) x25519W_good hrssW_good (fun _ => kemW_good)
      (by decide) (by decide)⟩

end KeyShareProof
